import Mathlib

/-!
# RecastDemo `main.cpp`: the interactive session controller

A shallow embedding of the orchestration code of `RecastDemo/Source/main.cpp`
(camera auto-framing, mouse event handling, picking, fixed-step update,
build button, sample selection, geometry loading, test-case replay) and
theorems about it.

Conventions of the embedding.

* `float` arithmetic is read over an ordered field `α` (the rationals or the
  reals); `sqrtf` is a parameter of the definitions that need it, so that every
  definition stays executable.
* `int` values are mathematical integers: screen coordinates are bounded by the
  window size, far below the range where `dx * dx + dy * dy` could overflow.
* Objects created with `new` receive a fresh address from a counter of the
  session; pointers are `Option` of an object, a null pointer is `none`.
* Calls into external collaborators (the build context, the sample, the test
  case) are appended, in program order, to the `trace` of the session. What an
  external call returns (load results, build result, raycast result, modifier
  keys, GUI clicks) is an argument of the block that makes the call.
-/

namespace RecastDemo

/-- A `float[3]`. -/
structure Vec3 (α : Type) where
  x : α
  y : α
  z : α

/-- The camera variables of `main` together with the two fog parameters that
`update_camera` hands to `glFogf`. -/
structure Camera (α : Type) where
  cameraPos : Vec3 α
  cameraEulers : α × α
  camr : α
  fogStart : α
  fogEnd : α

section Scalar

variable {α : Type} [LinearOrderedField α]

/-- The helper `rcSqr` of Recast: the square of its argument. -/
def rcSqr (a : α) : α := a * a

/-- The helper `rcClamp` of Recast: `v < mn ? mn : (v > mx ? mx : v)`. -/
def rcClamp (v mn mx : α) : α := if v < mn then mn else if v > mx then mx else v

/-- The function `update_camera` (main.cpp 182-199). `bmin` and `bmax` are the
two pointer arguments, `none` for a null pointer. -/
def update_camera (sqrtf : α → α) (bmin bmax : Option (Vec3 α)) (c : Camera α) : Camera α :=
  let c1 : Camera α :=
    match bmin, bmax with
    | some mn, some mx =>
      let camr := sqrtf (rcSqr (mx.x - mn.x) + rcSqr (mx.y - mn.y) + rcSqr (mx.z - mn.z)) / 2
      { c with
        cameraPos := ⟨(mx.x + mn.x) / 2 + camr, (mx.y + mn.y) / 2 + camr, (mx.z + mn.z) / 2 + camr⟩
        camr := camr * 3 }
    | _, _ => c
  { c1 with
    cameraEulers := (45, -125)
    fogStart := c1.camr * (1 / 10)
    fogEnd := c1.camr * (5 / 4) }

end Scalar

/-! ### Objects and external calls -/

/-- Modelled from the spec: the class `InputGeom` is declared outside main.cpp.
Of a loaded geometry asset the session uses its identity (the address returned
by `new`) and the two bounds `getNavMeshBoundsMin()` / `getNavMeshBoundsMax()`
("axis-aligned bounds (min, max)"), which are non-null for a loaded asset. -/
structure InputGeom (α : Type) where
  addr : Nat
  bmin : Vec3 α
  bmax : Vec3 α

/-- Modelled from the spec: the class `Sample` is declared outside main.cpp.
A pipeline has a kind (its index in `g_samples`), an identity, the "reference
to the currently attached GeometryAsset (may be none)" that `getInputGeom()`
returns and `handleMeshChanged` sets, and the members main.cpp writes
(`m_model_name`, the context, `is_tf2`). -/
structure Sample where
  addr : Nat
  kind : Fin 3
  m_geom : Option Nat
  m_model_name : String
  hasContext : Bool
  has_tf2 : Bool

/-- Modelled from the spec: the class `TestCase` is declared outside main.cpp.
A loaded script names its "target sample kind" (`getSampleName()`) and its
"target geometry name" (`getGeomFileName()`); its assertions are opaque. -/
structure TestCase where
  sampleName : String
  geomFileName : String

/-- Calls into external collaborators, recorded in program order. Objects are
named by their address. -/
inductive Call (α : Type) where
  | resetLog
  | dumpLog (msg : String)
  | geomLoad (geom : Nat) (path : String)
  | testLoad (path : String)
  | setContext (sample : Nat)
  | handleMeshChanged (sample : Nat) (geom : Nat)
  | handleSettings (sample : Nat)
  | handleBuild (sample : Nat)
  | handleUpdate (sample : Nat) (dt : α)
  | handleClick (sample : Nat) (s : Vec3 α) (p : Vec3 α) (shift : Bool)
  | handleToggle (sample : Nat)
  | handleStep (sample : Nat)
  | collectSettings (sample : Nat)
  | saveGeomSet (geom : Nat)
  | doTests (sample : Nat)
  | deleteGeom (geom : Nat)
  | deleteSample (sample : Nat)
  | deleteTest

/-- The variables of `main` that the modelled blocks read or write. The last
four fields are locals of one frame (`mouseScroll`, `processHitTest`,
`processHitTestShift`, `geom_path`); `heap` is the next fresh address. -/
structure Session (α : Type) where
  heap : Nat
  trace : List (Call α)
  done : Bool
  timeAcc : α
  mousePos : Int × Int
  origMousePos : Int × Int
  cam : Camera α
  origCameraEulers : α × α
  scrollZoom : α
  rotate : Bool
  movedDuringRotate : Bool
  rayStart : Vec3 α
  rayEnd : Vec3 α
  mouseOverMenu : Bool
  showMenu : Bool
  showLog : Bool
  showTools : Bool
  showLevels : Bool
  showSample : Bool
  showTestCases : Bool
  logScroll : Int
  sampleName : String
  meshName : String
  markerPosition : Vec3 α
  markerPositionSet : Bool
  geom : Option (InputGeom α)
  sample : Option Sample
  test : Option TestCase
  mouseScroll : Int
  processHitTest : Bool
  processHitTestShift : Bool
  geom_path : String

/-- The table `g_samples` (main.cpp 70-75): the names of the three entries. -/
def g_samples (i : Fin 3) : String :=
  match i with
  | 0 => "Solo Mesh"
  | 1 => "Tile Mesh"
  | 2 => "Temp Obstacles"

/-- The indices `0 .. g_nsamples - 1`, in loop order. -/
def sampleIndices : List (Fin 3) := [0, 1, 2]

/-- The constant `meshesFolder`. -/
def meshesFolder : String := "Meshes"

/-- The constant `testCasesFolder`. -/
def testCasesFolder : String := "TestCases"

/-- The expression `p.substr(p.rfind("\\") + 1)`: what follows the last
backslash of `p`, all of `p` when it has none. -/
def afterLastBackslash (p : String) : String :=
  String.mk (p.toList.reverse.takeWhile (fun c => c ≠ Char.ofNat 92)).reverse

/-- The expression `n.substr(0, n.size() - 4)`; for a name shorter than four
characters the unsigned length wraps around and the whole name is kept. Names
are read as ASCII, one `char` per character. -/
def dropExtension (n : String) : String :=
  if n.length < 4 then n else n.take (n.length - 4)

/-- What `g_samples[i].create()` followed by the assignment of `is_tf2` yields:
a new sample of kind `i` at a fresh address, with no geometry attached. -/
def newSampleAt (addr : Nat) (i : Fin 3) : Sample :=
  { addr := addr, kind := i, m_geom := none, m_model_name := "", hasContext := false,
    has_tf2 := true }

section Blocks

variable {α : Type} [LinearOrderedField α]

/-- Append one external call to the trace. -/
def Session.call (s : Session α) (c : Call α) : Session α :=
  { s with trace := s.trace ++ [c] }

/-- The bounds handed to `update_camera` by its callers: both null unless a
geometry is present. -/
def Session.reframe (sqrtf : α → α) (s : Session α) : Session α :=
  if s.geom.isSome || s.sample.isSome then
    let bmin := s.geom.map (fun g => g.bmin)
    let bmax := s.geom.map (fun g => g.bmax)
    { s with cam := update_camera sqrtf bmin bmax s.cam }
  else s

/-! ### Input events (main.cpp 484-629) -/

/-- The keys the `SDL_KEYDOWN` case distinguishes. -/
inductive Key where
  | escape
  | t
  | tab
  | space
  | one
  | nine
  | other

/-- The mouse buttons the button cases distinguish. -/
inductive MouseButton where
  | left
  | right
  | other

/-- The events of the `switch` of the event loop. A button release carries the
state of the shift modifier that `SDL_GetModState()` reports while it is
handled. -/
inductive Event where
  | keyDown (k : Key)
  | mouseWheel (y : Int)
  | mouseButtonDown (b : MouseButton)
  | mouseButtonUp (b : MouseButton) (shift : Bool)
  | mouseMotion (x y : Int)
  | quit
  | other

/-- The start of a frame (main.cpp 484-486): the per-frame locals. -/
def beginFrame (s : Session α) : Session α :=
  { s with mouseScroll := 0, processHitTest := false, processHitTestShift := false }

/-- One pass of the `switch (event.type)` (main.cpp 492-628); `height` is the
window height. -/
def handleEvent (height : Int) (s : Session α) (e : Event) : Session α :=
  match e with
  | .keyDown .escape => { s with done := true }
  | .keyDown .t => { s with showLevels := false, showSample := false, showTestCases := true }
  | .keyDown .tab => { s with showMenu := !s.showMenu }
  | .keyDown .space =>
    match s.sample with
    | some sm => s.call (.handleToggle sm.addr)
    | none => s
  | .keyDown .one =>
    match s.sample with
    | some sm => s.call (.handleStep sm.addr)
    | none => s
  | .keyDown .nine =>
    match s.sample, s.geom with
    | some sm, some g => (s.call (.collectSettings sm.addr)).call (.saveGeomSet g.addr)
    | _, _ => s
  | .keyDown .other => s
  | .mouseWheel y =>
    if y < 0 then
      if s.mouseOverMenu then { s with mouseScroll := s.mouseScroll + 1 }
      else { s with scrollZoom := s.scrollZoom + 1 }
    else
      if s.mouseOverMenu then { s with mouseScroll := s.mouseScroll - 1 }
      else { s with scrollZoom := s.scrollZoom - 1 }
  | .mouseButtonDown .right =>
    if !s.mouseOverMenu then
      { s with
        rotate := true
        movedDuringRotate := false
        origMousePos := s.mousePos
        origCameraEulers := s.cam.cameraEulers }
    else s
  | .mouseButtonDown _ => s
  | .mouseButtonUp .right _ =>
    let s1 : Session α := { s with rotate := false }
    if !s1.mouseOverMenu then
      if !s1.movedDuringRotate then
        { s1 with processHitTest := true, processHitTestShift := true }
      else s1
    else s1
  | .mouseButtonUp .left shift =>
    if !s.mouseOverMenu then
      { s with processHitTest := true, processHitTestShift := shift }
    else s
  | .mouseButtonUp .other _ => s
  | .mouseMotion x y =>
    let s1 : Session α := { s with mousePos := (x, height - 1 - y) }
    if s1.rotate then
      let dx : Int := s1.mousePos.1 - s1.origMousePos.1
      let dy : Int := s1.mousePos.2 - s1.origMousePos.2
      let s2 : Session α :=
        { s1 with cam := { s1.cam with
            cameraEulers := (s1.origCameraEulers.1 - (dy : α) * (1 / 4),
                             s1.origCameraEulers.2 + (dx : α) * (1 / 4)) } }
      if dx * dx + dy * dy > 3 * 3 then { s2 with movedDuringRotate := true } else s2
    else s1
  | .quit => { s with done := true }
  | .other => s

/-- The event loop of one frame: `while (SDL_PollEvent(&event))`. -/
def pollEvents (height : Int) (s : Session α) (events : List Event) : Session α :=
  events.foldl (handleEvent height) (beginFrame s)

/-- What the rest of a frame does to the variables the event loop reads: the
GUI pass sets `mouseOverMenu` to false (main.cpp 796) and then to true when a
scroll area reports the pointer inside it; `over` is the outcome. -/
def guiPass (over : Bool) (s : Session α) : Session α :=
  { s with mouseOverMenu := over }

/-- What happens between the press and the release of an orbit: mouse motion
events, and frame boundaries (the GUI pass of the ending frame followed by the
start of the next frame). -/
inductive OrbitStep where
  | motion (x y : Int)
  | frame (over : Bool)

/-- Run one step of an orbit. -/
def orbitStep (height : Int) (s : Session α) (st : OrbitStep) : Session α :=
  match st with
  | .motion x y => handleEvent height s (.mouseMotion x y)
  | .frame over => beginFrame (guiPass over s)

/-- Run the steps between the press and the release of an orbit. -/
def runOrbit (height : Int) (s : Session α) (steps : List OrbitStep) : Session α :=
  steps.foldl (orbitStep height) s

/-! ### Hit test (main.cpp 643-676) -/

/-- The point `rayStart + (rayEnd - rayStart) * hitTime`. -/
def hitPoint (rayStart rayEnd : Vec3 α) (hitTime : α) : Vec3 α :=
  ⟨rayStart.x + (rayEnd.x - rayStart.x) * hitTime,
   rayStart.y + (rayEnd.y - rayStart.y) * hitTime,
   rayStart.z + (rayEnd.z - rayStart.z) * hitTime⟩

/-- The block "Hit test mesh". `raycastMesh` is the answer of
`geom->raycastMesh(rayStart, rayEnd, hitTime)` (hit flag and hit time), `ctrl`
the state of the control modifier. -/
def hitTest (raycastMesh : Vec3 α → Vec3 α → Bool × α) (ctrl : Bool) (s : Session α) :
    Session α :=
  match s.processHitTest, s.geom, s.sample with
  | true, some _, some sm =>
    let r := raycastMesh s.rayStart s.rayEnd
    if r.1 then
      if ctrl then
        { s with markerPositionSet := true, markerPosition := hitPoint s.rayStart s.rayEnd r.2 }
      else
        let pos := hitPoint s.rayStart s.rayEnd r.2
        s.call (.handleClick sm.addr s.rayStart pos s.processHitTestShift)
    else
      if ctrl then { s with markerPositionSet := false } else s
  | _, _, _ => s

/-! ### Fixed-step update (main.cpp 678-691) -/

/-- The constant `DELTA_TIME = 1.0f / SIM_RATE` with `SIM_RATE = 20`. -/
def DELTA_TIME : α := 1 / 20

/-- The loop `while (timeAcc > DELTA_TIME)`. The state of the loop is
`timeAcc`, `simIter` (which starts at 0 and only grows, a natural number here)
and the trace; the result is `none` when the fuel runs out before the loop
condition fails. -/
def simLoop (sample : Option Sample) :
    Nat → α → Nat → List (Call α) → Option (α × Nat × List (Call α))
  | 0, _, _, _ => none
  | fuel + 1, timeAcc, simIter, tr =>
    if timeAcc > DELTA_TIME then
      let timeAcc1 := timeAcc - DELTA_TIME
      let tr1 :=
        match sample with
        | some sm => if simIter < 5 then tr ++ [Call.handleUpdate sm.addr DELTA_TIME] else tr
        | none => tr
      simLoop sample fuel timeAcc1 (simIter + 1) tr1
    else some (timeAcc, simIter, tr)

/-- The block "Update sample simulation" for a frame of duration `dt`. -/
def updateSimulation (fuel : Nat) (dt : α) (s : Session α) : Option (Session α) :=
  let timeAcc := rcClamp (s.timeAcc + dt) (-1) 1
  match simLoop s.sample fuel timeAcc 0 s.trace with
  | some (timeAcc1, _, tr) => some { s with timeAcc := timeAcc1, trace := tr }
  | none => none

/-! ### Helpers shared by the GUI blocks -/

/-- The statement `delete sample;`: the destructor runs when the pointer is
not null; the pointer itself is left as it is. -/
def Session.destroySample (s : Session α) : Session α :=
  match s.sample with
  | some sm => s.call (.deleteSample sm.addr)
  | none => s

/-- The statement `delete geom;`. -/
def Session.destroyGeom (s : Session α) : Session α :=
  match s.geom with
  | some g => s.call (.deleteGeom g.addr)
  | none => s

/-- The statement `delete test;`. -/
def Session.destroyTest (s : Session α) : Session α :=
  match s.test with
  | some _ => s.call .deleteTest
  | none => s

/-- The statement `sample->setContext(&ctx);`. -/
def Session.setContext (s : Session α) : Session α :=
  match s.sample with
  | some sm => ({ s with sample := some { sm with hasContext := true } }).call (.setContext sm.addr)
  | none => s

/-- Modelled from the spec: `Sample::handleMeshChanged` is defined outside
main.cpp; the call `sample->handleMeshChanged(geom)` is the mesh-changed
notification that makes `geom` the attached geometry of the pipeline. -/
def Session.meshChanged (s : Session α) : Session α :=
  match s.sample, s.geom with
  | some sm, some g =>
    ({ s with sample := some { sm with m_geom := some g.addr } }).call
      (.handleMeshChanged sm.addr g.addr)
  | _, _ => s

/-- The two statements guarded by `if (sample && geom)` after a load: the
mesh-changed notification and the assignment of `m_model_name`. -/
def Session.attachLoaded (s : Session α) : Session α :=
  match s.sample, s.geom with
  | some _, some _ =>
    let s1 := s.meshChanged
    match s1.sample with
    | some sm => { s1 with sample := some { sm with m_model_name := dropExtension s1.meshName } }
    | none => s1
  | _, _ => s

/-- A scroll area that reports the pointer inside it sets `mouseOverMenu`. -/
def Session.scrollArea (inside : Bool) (s : Session α) : Session α :=
  if inside then { s with mouseOverMenu := true } else s

/-- One iteration of the loop over `g_samples` that creates the sample whose
entry is selected; `newSample` is the first component. -/
def createSelected (selected : Fin 3 → Bool) (acc : Option Sample × Session α) (i : Fin 3) :
    Option Sample × Session α :=
  if selected i then
    (some (newSampleAt acc.2.heap i),
      { acc.2 with heap := acc.2.heap + 1, sampleName := g_samples i })
  else acc

/-! ### Startup (main.cpp 157-180 and 385-471) -/

/-- The function `do_auto_load` (main.cpp 157-180), called with the variables
of `main`. `loader` is the outcome of `geom->load`: the bounds of the loaded
mesh, or `none` on failure. -/
def do_auto_load (loader : String → Option (Vec3 α × Vec3 α)) (path : String)
    (s : Session α) : Session α :=
  let s1 : Session α := { s with meshName := afterLastBackslash path }
  let addr := s1.heap
  let s2 : Session α := ({ s1 with heap := s1.heap + 1 }).call (.geomLoad addr path)
  let s3 : Session α :=
    match loader path with
    | some b => { s2 with geom := some ⟨addr, b.1, b.2⟩ }
    | none =>
      (({ s2 with geom := none }).call (.deleteGeom addr)).call
        (.dumpLog ("Geom load log " ++ s2.meshName ++ ":"))
  s3.attachLoaded

/-- The initial values of the camera variables (main.cpp 391-393); the fog
parameters are those of a fresh GL context. -/
def initCamera : Camera α :=
  { cameraPos := ⟨0, 0, 0⟩, cameraEulers := (45, 45), camr := 1000, fogStart := 0, fogEnd := 1 }

/-- The initial values of the variables of `main` (main.cpp 385-433). The two
rays are not initialised by the source. -/
def initSession (rayStart rayEnd : Vec3 α) : Session α :=
  { heap := 0
    trace := []
    done := false
    timeAcc := 0
    mousePos := (0, 0)
    origMousePos := (0, 0)
    cam := initCamera
    origCameraEulers := (0, 0)
    scrollZoom := 0
    rotate := false
    movedDuringRotate := false
    rayStart := rayStart
    rayEnd := rayEnd
    mouseOverMenu := false
    showMenu := true
    showLog := false
    showTools := true
    showLevels := false
    showSample := false
    showTestCases := false
    logScroll := 0
    sampleName := "Choose Sample..."
    meshName := "Choose Mesh..."
    markerPosition := ⟨0, 0, 0⟩
    markerPositionSet := false
    geom := none
    sample := none
    test := none
    mouseScroll := 0
    processHitTest := false
    processHitTestShift := false
    geom_path := "" }

/-- The code of `main` before the frame loop (main.cpp 435-471) for at most
one command line argument: the tiled sample is created, the optional
`auto_load` path is loaded, the fog is set. -/
def startup (sqrtf : α → α) (loader : String → Option (Vec3 α × Vec3 α))
    (auto_load : Option String) (rayStart rayEnd : Vec3 α) : Session α :=
  let s0 : Session α := initSession rayStart rayEnd
  let s1 : Session α :=
    { s0 with sample := some (newSampleAt s0.heap 1), heap := s0.heap + 1,
              sampleName := g_samples 1 }
  let s2 := s1.setContext
  let s3 := if s2.geom.isSome then s2.meshChanged else s2
  let s4 :=
    match auto_load with
    | some path => (do_auto_load loader path s3).reframe sqrtf
    | none => s3
  { s4 with cam := { s4.cam with fogStart := s4.cam.camr * (1 / 10),
                                 fogEnd := s4.cam.camr * (5 / 4) } }

/-! ### The GUI blocks of a frame (main.cpp 816-1163) -/

/-- The declaration `string geom_path;` (main.cpp 816). -/
def declareGeomPath (s : Session α) : Session α :=
  { s with geom_path := "" }

/-- The button "Load mesh..." (main.cpp 847-876); `picked` is the file the
dialog returned, `none` when the button was not pressed or the dialog was
cancelled. -/
def loadMeshButton (picked : Option String) (s : Session α) : Session α :=
  if !s.showMenu then s
  else
    match picked with
    | some file => { s with geom_path := file, meshName := afterLastBackslash file }
    | none => s

/-- The build section of the properties panel (main.cpp 903-925); `click` is
what `imguiButton("Build")` returns and `buildOk` what `sample->handleBuild()`
returns. -/
def buildSection (click : Bool) (buildOk : Bool) (s : Session α) : Session α :=
  if !s.showMenu then s
  else
    match s.geom, s.sample with
    | some _, some sm =>
      let s1 := s.call (.handleSettings sm.addr)
      if click then
        let s2 := (s1.call .resetLog).call (.handleBuild sm.addr)
        let s3 : Session α := if !buildOk then { s2 with showLog := true, logScroll := 0 } else s2
        let s4 := s3.call (.dumpLog ("Build log " ++ s3.meshName ++ ":"))
        { s4.destroyTest with test := none }
      else s1
    | _, _ => s

/-- The sample selection dialog (main.cpp 936-982); `selected i` is what
`imguiItem` returns for entry `i` of `g_samples`. -/
def sampleSelection (sqrtf : α → α) (inside : Bool) (selected : Fin 3 → Bool)
    (s : Session α) : Session α :=
  if !s.showSample then s
  else
    let s1 := s.scrollArea inside
    let r := sampleIndices.foldl (createSelected selected) (none, s1)
    let s2 : Session α :=
      match r.1 with
      | some newSample =>
        let t1 : Session α := { r.2.destroySample with sample := some newSample }
        let t2 := t1.setContext
        let t3 := if t2.geom.isSome then t2.meshChanged else t2
        { t3 with showSample := false }
      | none => r.2
    s2.reframe sqrtf

/-- The level selection dialog (main.cpp 984-1015); `levelToLoad` is the entry
of the file list that was clicked, if any. -/
def levelSelection (inside : Bool) (levelToLoad : Option String) (s : Session α) :
    Session α :=
  if !s.showLevels then s
  else
    let s1 := s.scrollArea inside
    match levelToLoad with
    | some file =>
      let s2 : Session α := { s1 with meshName := file, showLevels := false }
      let s3 : Session α := { s2.destroyGeom with geom := none }
      { s3 with geom_path := meshesFolder ++ "/" ++ s3.meshName }
    | none => s1

/-- The geometry load of a frame (main.cpp 1016-1053), run when `geom_path`
is not empty. `loader` is the outcome of `geom->load`. -/
def loadGeometry (sqrtf : α → α) (loader : String → Option (Vec3 α × Vec3 α))
    (s : Session α) : Session α :=
  if s.geom_path = "" then s
  else
    let addr := s.heap
    let s1 : Session α := ({ s with heap := s.heap + 1 }).call (.geomLoad addr s.geom_path)
    let s2 : Session α :=
      match loader s1.geom_path with
      | some b => { s1 with geom := some ⟨addr, b.1, b.2⟩ }
      | none =>
        let t1 : Session α := ({ s1 with geom := none }).call (.deleteGeom addr)
        let t2 : Session α :=
          match t1.sample with
          | some sm =>
            if sm.m_geom.isSome then { t1.destroySample with sample := none } else t1
          | none => t1
        ({ t2 with showLog := true, logScroll := 0 }).call
          (.dumpLog ("Geom load log " ++ t2.meshName ++ ":"))
    s2.attachLoaded.reframe sqrtf

/-- Reading through a null `test` pointer. -/
inductive Fault where
  | nullTestCase

/-- Replay, first step (main.cpp 1085-1107): the sample whose name the test
case gives is created and replaces the current one. -/
def replaySelectSample (tc : TestCase) (s : Session α) : Session α :=
  let r := sampleIndices.foldl
    (createSelected (fun i => decide (g_samples i = tc.sampleName))) (none, s)
  let s1 : Session α := { r.2.destroySample with sample := r.1 }
  if s1.sample.isSome then { s1.setContext with showSample := false } else s1

/-- Replay, second step (main.cpp 1109-1131): the geometry the test case names
replaces the current one. -/
def replayLoadGeom (loader : String → Option (Vec3 α × Vec3 α)) (tc : TestCase)
    (s : Session α) : Session α :=
  let s1 : Session α := { s with meshName := tc.geomFileName }
  let path := meshesFolder ++ "/" ++ s1.meshName
  let addr := s1.heap
  let s2 : Session α := ({ s1.destroyGeom with heap := s1.heap + 1 }).call (.geomLoad addr path)
  let s3 : Session α :=
    match loader path with
    | some b => { s2 with geom := some ⟨addr, b.1, b.2⟩ }
    | none =>
      let t1 : Session α := ({ s2 with geom := none }).call (.deleteGeom addr)
      let t2 : Session α := { t1.destroySample with sample := none }
      ({ t2 with showLog := true, logScroll := 0 }).call
        (.dumpLog ("Geom load log " ++ t2.meshName ++ ":"))
  s3.attachLoaded

/-- Replay, third step (main.cpp 1133-1158): settings, build, camera, tests. -/
def replayBuildAndTest (sqrtf : α → α) (buildOk : Bool) (s : Session α) : Session α :=
  let s1 :=
    match s.sample with
    | some sm => s.call (.handleSettings sm.addr)
    | none => s
  let s2 := s1.call .resetLog
  let s3 :=
    match s2.sample with
    | some sm =>
      let t := s2.call (.handleBuild sm.addr)
      if !buildOk then t.call (.dumpLog ("Build log " ++ t.meshName ++ ":")) else t
    | none => s2
  let s4 := s3.reframe sqrtf
  match s4.sample with
  | some sm => s4.call (.doTests sm.addr)
  | none => s4

/-- The test case dialog (main.cpp 1054-1163). `testToLoad` is the clicked
entry of the file list, `testLoader` the outcome of `test->load`, `loader` the
outcome of `geom->load`, `buildOk` what `sample->handleBuild()` returns. The
result is an error when `test->getSampleName()` is read through a null
pointer. -/
def testCases (sqrtf : α → α) (inside : Bool) (testToLoad : Option String)
    (testLoader : String → Option TestCase) (loader : String → Option (Vec3 α × Vec3 α))
    (buildOk : Bool) (s : Session α) : Except Fault (Session α) :=
  if !s.showTestCases then .ok s
  else
    let s1 := s.scrollArea inside
    match testToLoad with
    | none => .ok s1
    | some file =>
      let path := testCasesFolder ++ "/" ++ file
      let s2 : Session α := ({ s1 with test := testLoader path }).call (.testLoad path)
      match s2.test with
      | none => .error .nullTestCase
      | some tc =>
        .ok (replayBuildAndTest sqrtf buildOk (replayLoadGeom loader tc (replaySelectSample tc s2)))

/-! ### Quantities and scenarios the statements speak about -/

/-- The squared screen displacement `dx * dx + dy * dy` that the motion case
computes for a motion event at `(x, y)` when `p` is the mouse position
recorded at orbit start. -/
def sqDisplacement (height : Int) (p : Int × Int) (x y : Int) : Int :=
  (x - p.1) * (x - p.1) + (height - 1 - y - p.2) * (height - 1 - y - p.2)

/-- The calls `sample->handleUpdate(DELTA_TIME)` a frame makes when it makes
`k` of them: none without a sample. -/
def updateCalls (sample : Option Sample) (k : Nat) : List (Call α) :=
  match sample with
  | some sm => List.replicate k (Call.handleUpdate sm.addr DELTA_TIME)
  | none => []

/-- A sample is chosen in the selection dialog and the next GUI pass loads the
file picked in the "Load mesh..." dialog. -/
def selectThenDialogLoad (sqrtf : α → α) (loader : String → Option (Vec3 α × Vec3 α))
    (inside : Bool) (kind : Fin 3) (file : String) (s : Session α) : Session α :=
  let s1 := sampleSelection sqrtf inside (fun i => decide (i = kind)) s
  loadGeometry sqrtf loader (loadMeshButton (some file) (declareGeomPath s1))

/-- A sample is chosen in the selection dialog and the level list then loads
the clicked file. -/
def selectThenLevelLoad (sqrtf : α → α) (loader : String → Option (Vec3 α × Vec3 α))
    (inside inside2 : Bool) (kind : Fin 3) (file : String) (s : Session α) : Session α :=
  let s1 := sampleSelection sqrtf inside (fun i => decide (i = kind)) s
  loadGeometry sqrtf loader (levelSelection inside2 (some file) (declareGeomPath s1))

/-- A run of mouse motion events, each handled by the motion case; an event
is the pair `(event.motion.x, event.motion.y)`. -/
def runMotions (height : Int) (s : Session α) (motions : List (Int × Int)) : Session α :=
  motions.foldl (fun t m => handleEvent height t (.mouseMotion m.1 m.2)) s

/-- The mouse position after a run of motion events that starts at `p`: the
position the last event reports, `p` itself for an empty run. -/
def lastMousePos (height : Int) (p : Int × Int) (motions : List (Int × Int)) : Int × Int :=
  match motions.getLast? with
  | some m => (m.1, height - 1 - m.2)
  | none => p

/-- The ownership condition on the attached geometry: a pipeline that is
present refers to no geometry or to the geometry the session holds. -/
def Session.attachedOk (s : Session α) : Bool :=
  match s.sample with
  | none => true
  | some sm =>
    match sm.m_geom, s.geom with
    | none, _ => true
    | some a, some g => decide (a = g.addr)
    | some _, none => false

/-- A geometry load through the "Load mesh..." dialog in one GUI pass. -/
def dialogLoad (sqrtf : α → α) (loader : String → Option (Vec3 α × Vec3 α))
    (picked : Option String) (s : Session α) : Session α :=
  loadGeometry sqrtf loader (loadMeshButton picked (declareGeomPath s))

/-- A geometry load through the level list in one GUI pass. -/
def levelLoad (sqrtf : α → α) (loader : String → Option (Vec3 α × Vec3 α))
    (inside : Bool) (levelToLoad : Option String) (s : Session α) : Session α :=
  loadGeometry sqrtf loader (levelSelection inside levelToLoad (declareGeomPath s))

end Blocks


/-! ### Concrete inputs -/

/-- An executable square root on the rationals, exact on squares of rationals;
it stands for `sqrtf` where a block is evaluated on concrete rational input. -/
def sqrtQ (q : ℚ) : ℚ := (Nat.sqrt (q.num.toNat * q.den) : ℚ) / q.den

/-- A loader for which every load fails. -/
def loaderNone : String → Option (Vec3 ℚ × Vec3 ℚ) := fun _ => none

/-- A loader for which every load yields the box (0,0,0)-(10,0,10). -/
def loaderBox : String → Option (Vec3 ℚ × Vec3 ℚ) := fun _ => some (⟨0, 0, 0⟩, ⟨10, 0, 10⟩)

/-- The test case of the replay scenario: sample "Tile Mesh", geometry
"arena.obj". -/
def arenaTest : TestCase := { sampleName := "Tile Mesh", geomFileName := "arena.obj" }

/-- The session at the first frame when no file is given on the command line. -/
def session0 : Session ℚ := startup sqrtQ loaderNone none ⟨0, 0, 0⟩ ⟨0, 0, 1⟩

/-- The session at the first frame after a successful auto-load of
"arena.obj". -/
def sessionLoaded : Session ℚ := startup sqrtQ loaderBox (some "arena.obj") ⟨0, 0, 0⟩ ⟨0, 0, 1⟩

/-- The loaded session after a frame whose only event is a release of the left
button: a pick is requested. -/
def sessionPick : Session ℚ := pollEvents 600 sessionLoaded [.mouseButtonUp .left false]

/-- The loaded session with a test case present and the sample dialog open. -/
def sessionTested : Session ℚ :=
  { sessionLoaded with test := some arenaTest, showSample := true }

/-- The loaded session after the key `t`: the test case dialog is open. -/
def sessionReplay : Session ℚ := handleEvent 600 sessionLoaded (.keyDown .t)

/-- The loaded session after the "Load mesh..." dialog returned "missing.obj". -/
def sessionDialog : Session ℚ :=
  loadMeshButton (some "missing.obj") (declareGeomPath sessionLoaded)

/-- The loaded session with the level list open. -/
def sessionLevels : Session ℚ := { sessionLoaded with showLevels := true }

/-- A ray cast that hits half way along the ray. -/
def raycastHalf : Vec3 ℚ → Vec3 ℚ → Bool × ℚ := fun _ _ => (true, 1 / 2)

/-! ## Theorems -/

/-! ### Camera auto-framing -/

theorem sqrt_two_hundred : Real.sqrt 200 = 10 * Real.sqrt 2 := by
  have h : (200 : ℝ) = 10 ^ 2 * 2 := by norm_num
  rw [h, Real.sqrt_mul (by positivity), Real.sqrt_sq (by norm_num)]

theorem framed_radius (c : Camera ℝ) :
    (update_camera Real.sqrt (some ⟨0, 0, 0⟩) (some ⟨10, 0, 10⟩) c).camr
      = 15 * Real.sqrt 2 := by
  simp only [update_camera, rcSqr]
  norm_num
  rw [sqrt_two_hundred]
  ring

/-- C1, as stated, fails: after auto-framing the initial camera on the box
bmin=(0,0,0), bmax=(10,0,10) the camera radius is not 5√2. -/
theorem C1_radius_is_not_half_diagonal :
    (update_camera Real.sqrt (some ⟨0, 0, 0⟩) (some ⟨10, 0, 10⟩) initCamera).camr
      ≠ 5 * Real.sqrt 2 := by
  have h2 : (0 : ℝ) < Real.sqrt 2 := Real.sqrt_pos.mpr (by norm_num)
  rw [framed_radius]
  intro h
  linarith

/-- C1, amended: auto-framing on the box bmin=(0,0,0), bmax=(10,0,10) leaves
the camera radius equal to 15√2 (three times half the box diagonal), the
camera position equal to (5+5√2, 5√2, 5+5√2), the Euler angles equal to 45 and
-125, and the fog range equal to 0.1 and 1.25 times that radius. -/
theorem C1_auto_framing (c : Camera ℝ) :
    (update_camera Real.sqrt (some ⟨0, 0, 0⟩) (some ⟨10, 0, 10⟩) c).camr
      = 15 * Real.sqrt 2 ∧
    (update_camera Real.sqrt (some ⟨0, 0, 0⟩) (some ⟨10, 0, 10⟩) c).cameraPos.x
      = 5 + 5 * Real.sqrt 2 ∧
    (update_camera Real.sqrt (some ⟨0, 0, 0⟩) (some ⟨10, 0, 10⟩) c).cameraPos.y
      = 5 * Real.sqrt 2 ∧
    (update_camera Real.sqrt (some ⟨0, 0, 0⟩) (some ⟨10, 0, 10⟩) c).cameraPos.z
      = 5 + 5 * Real.sqrt 2 ∧
    (update_camera Real.sqrt (some ⟨0, 0, 0⟩) (some ⟨10, 0, 10⟩) c).cameraEulers
      = (45, -125) ∧
    (update_camera Real.sqrt (some ⟨0, 0, 0⟩) (some ⟨10, 0, 10⟩) c).fogStart
      = 15 * Real.sqrt 2 * (1 / 10) ∧
    (update_camera Real.sqrt (some ⟨0, 0, 0⟩) (some ⟨10, 0, 10⟩) c).fogEnd
      = 15 * Real.sqrt 2 * (5 / 4) := by
  simp only [update_camera, rcSqr]
  norm_num
  rw [sqrt_two_hundred]
  refine ⟨by ring, by ring, by ring⟩

/-! ### Orbit classification -/

theorem orbitStep_spec {α : Type} [LinearOrderedField α] (height : Int) (t : Session α)
    (st : OrbitStep) (hr : t.rotate = true) (hp : t.processHitTest = false) :
    (orbitStep height t st).rotate = true ∧
    (orbitStep height t st).origMousePos = t.origMousePos ∧
    (orbitStep height t st).processHitTest = false ∧
    ((orbitStep height t st).movedDuringRotate = true ↔
      t.movedDuringRotate = true ∨
        ∃ x y, st = OrbitStep.motion x y ∧ 9 < sqDisplacement height t.origMousePos x y) := by
  cases st with
  | motion x y =>
    by_cases h : 9 < sqDisplacement height t.origMousePos x y
    · have h' := h
      simp only [sqDisplacement] at h'
      simp [orbitStep, handleEvent, hr, hp, h']
      exact Or.inr ⟨x, y, ⟨rfl, rfl⟩, h⟩
    · have h' := h
      simp only [sqDisplacement] at h'
      simp [orbitStep, handleEvent, hr, hp, h']
      intro hd
      exact absurd hd h
  | frame over =>
    simp [orbitStep, beginFrame, guiPass, hr]

theorem runOrbit_spec {α : Type} [LinearOrderedField α] (height : Int)
    (steps : List OrbitStep) :
    ∀ t : Session α, t.rotate = true → t.processHitTest = false →
      (runOrbit height t steps).rotate = true ∧
      (runOrbit height t steps).origMousePos = t.origMousePos ∧
      (runOrbit height t steps).processHitTest = false ∧
      ((runOrbit height t steps).movedDuringRotate = true ↔
        t.movedDuringRotate = true ∨
          ∃ x y, OrbitStep.motion x y ∈ steps ∧
            9 < sqDisplacement height t.origMousePos x y) := by
  induction steps with
  | nil => intro t hr hp; simp [runOrbit, hr, hp]
  | cons st rest ih =>
    intro t hr hp
    obtain ⟨h1, h2, h3, h4⟩ := orbitStep_spec height t st hr hp
    obtain ⟨k1, k2, k3, k4⟩ := ih (orbitStep height t st) h1 h3
    have hrun : runOrbit height t (st :: rest)
        = runOrbit height (orbitStep height t st) rest := rfl
    rw [hrun]
    refine ⟨k1, k2.trans h2, k3, ?_⟩
    rw [k4, h4, h2]
    constructor
    · rintro ((hm | ⟨x, y, he, hd⟩) | ⟨x, y, hmem, hd⟩)
      · exact Or.inl hm
      · exact Or.inr ⟨x, y, by simp [he], hd⟩
      · exact Or.inr ⟨x, y, List.mem_cons_of_mem _ hmem, hd⟩
    · rintro (hm | ⟨x, y, hmem, hd⟩)
      · exact Or.inl (Or.inl hm)
      · rcases List.mem_cons.mp hmem with he | hmem
        · exact Or.inl (Or.inr ⟨x, y, he.symm, hd⟩)
        · exact Or.inr ⟨x, y, hmem, hd⟩

/-- C2, as stated, fails: an orbit pressed and released outside the overlay
whose only motion event has dx=3, dy=0 (squared displacement exactly 9, so
>= 9) still requests a pick on release. -/
theorem C2_displacement_nine_still_picks :
    session0.mouseOverMenu = false ∧
    (runOrbit 600 (handleEvent 600 session0 (.mouseButtonDown .right))
      [.motion 3 599]).mouseOverMenu = false ∧
    sqDisplacement 600 session0.mousePos 3 599 = 9 ∧
    (handleEvent 600
      (runOrbit 600 (handleEvent 600 session0 (.mouseButtonDown .right)) [.motion 3 599])
      (.mouseButtonUp .right false)).processHitTest = true := by
  refine ⟨rfl, rfl, by decide, rfl⟩

/-- C2, amended: for every orbit that starts with a secondary-button press
outside the overlay (no pick pending) and ends with a release outside the
overlay, and every sequence of motion events and frame boundaries in between,
the release requests a pick if and only if the squared displacement from the
orbit-start position stayed <= 9 at every motion event; it requests none when
the displacement was > 9 at some motion event. -/
theorem C2_orbit_release_pick {α : Type} [LinearOrderedField α] (height : Int)
    (s : Session α) (steps : List OrbitStep) (shift : Bool)
    (hpress : s.mouseOverMenu = false) (hidle : s.processHitTest = false)
    (hrelease :
      (runOrbit height (handleEvent height s (.mouseButtonDown .right)) steps).mouseOverMenu
        = false) :
    (handleEvent height
        (runOrbit height (handleEvent height s (.mouseButtonDown .right)) steps)
        (.mouseButtonUp .right shift)).processHitTest = true ↔
      ∀ x y, OrbitStep.motion x y ∈ steps → sqDisplacement height s.mousePos x y ≤ 9 := by
  have d1 : (handleEvent height s (.mouseButtonDown .right)).rotate = true := by
    simp [handleEvent, hpress]
  have d2 : (handleEvent height s (.mouseButtonDown .right)).processHitTest = false := by
    simp [handleEvent, hpress, hidle]
  have d3 : (handleEvent height s (.mouseButtonDown .right)).origMousePos = s.mousePos := by
    simp [handleEvent, hpress]
  have d4 : (handleEvent height s (.mouseButtonDown .right)).movedDuringRotate = false := by
    simp [handleEvent, hpress]
  obtain ⟨_, _, k3, k4⟩ :=
    runOrbit_spec height steps (handleEvent height s (.mouseButtonDown .right)) d1 d2
  rw [d3, d4] at k4
  simp only [Bool.false_eq_true, false_or] at k4
  generalize runOrbit height (handleEvent height s (.mouseButtonDown .right)) steps = r
    at hrelease k3 k4
  by_cases hm : r.movedDuringRotate = true
  · have hres : (handleEvent height r (.mouseButtonUp .right shift)).processHitTest = false := by
      simp [handleEvent, hrelease, hm, k3]
    rw [hres]
    obtain ⟨x, y, hmem, hd⟩ := k4.mp hm
    simp only [Bool.false_eq_true, false_iff]
    intro hall
    exact absurd (hall x y hmem) (not_le.mpr hd)
  · have hm' := hm
    rw [k4] at hm'
    simp only [Bool.not_eq_true] at hm
    have hres : (handleEvent height r (.mouseButtonUp .right shift)).processHitTest = true := by
      simp [handleEvent, hrelease, hm]
    rw [hres]
    simp only [true_iff]
    intro x y hmem
    by_contra hc
    exact hm' ⟨x, y, hmem, not_le.mp hc⟩

/-- C2, amended, at a concrete orbit: press at (0,0), two small motions with a
frame boundary between them, release. -/
theorem C2_orbit_release_pick_witness :
    session0.mouseOverMenu = false ∧ session0.processHitTest = false ∧
    (runOrbit 600 (handleEvent 600 session0 (.mouseButtonDown .right))
      [.motion 1 599, .frame false, .motion 2 598]).mouseOverMenu = false ∧
    ((handleEvent 600
        (runOrbit 600 (handleEvent 600 session0 (.mouseButtonDown .right))
          [.motion 1 599, .frame false, .motion 2 598])
        (.mouseButtonUp .right false)).processHitTest = true ↔
      ∀ x y, OrbitStep.motion x y ∈ [OrbitStep.motion 1 599, .frame false, .motion 2 598] →
        sqDisplacement 600 session0.mousePos x y ≤ 9) :=
  ⟨rfl, rfl, rfl,
    C2_orbit_release_pick 600 session0 [.motion 1 599, .frame false, .motion 2 598] false
      rfl rfl rfl⟩

/-! ### Fixed-step update -/

theorem simLoop_spec {α : Type} [LinearOrderedField α] (sample : Option Sample) :
    ∀ (n fuel : Nat) (acc : α) (it : Nat) (tr : List (Call α)),
      n < fuel → acc ≤ (n + 1 : α) * DELTA_TIME →
      ∃ m : Nat, m ≤ n ∧
        simLoop sample fuel acc it tr =
          some (acc - (m : α) * DELTA_TIME, it + m,
                tr ++ updateCalls sample (min (it + m) 5 - min it 5)) ∧
        acc - (m : α) * DELTA_TIME ≤ DELTA_TIME ∧
        (m = 0 ∨ 0 < acc - (m : α) * DELTA_TIME) := by
  intro n
  induction n with
  | zero =>
    intro fuel acc it tr hf hacc
    obtain ⟨f, rfl⟩ : ∃ f, fuel = f + 1 := ⟨fuel - 1, by omega⟩
    refine ⟨0, le_refl _, ?_, ?_, Or.inl rfl⟩
    · have hnot : ¬ acc > DELTA_TIME := by
        simp only [Nat.cast_zero, zero_add, one_mul] at hacc
        exact not_lt.mpr hacc
      simp only [simLoop, hnot, if_false]
      cases sample <;> simp [updateCalls]
    · simpa using hacc
  | succ n ih =>
    intro fuel acc it tr hf hacc
    obtain ⟨f, rfl⟩ : ∃ f, fuel = f + 1 := ⟨fuel - 1, by omega⟩
    by_cases hgt : acc > DELTA_TIME
    · have hacc' : acc - DELTA_TIME ≤ ((n : α) + 1) * DELTA_TIME := by
        push_cast at hacc
        linarith
      have step : ∃ tr1, simLoop sample (f + 1) acc it tr
            = simLoop sample f (acc - DELTA_TIME) (it + 1) tr1 ∧
          tr1 = tr ++ updateCalls sample (if it < 5 then 1 else 0) := by
        simp only [simLoop, hgt, if_true]
        refine ⟨_, rfl, ?_⟩
        cases sample with
        | none => simp [updateCalls]
        | some sm => by_cases h5 : it < 5 <;> simp [updateCalls, h5]
      obtain ⟨tr1, hstep, htr1⟩ := step
      obtain ⟨m, hm, hrun, hle, hpos⟩ :=
        ih f (acc - DELTA_TIME) (it + 1) tr1 (by omega) hacc'
      have e1 : acc - DELTA_TIME - (m : α) * DELTA_TIME
          = acc - ((m + 1 : Nat) : α) * DELTA_TIME := by
        push_cast; ring
      refine ⟨m + 1, by omega, ?_, ?_, Or.inr ?_⟩
      · rw [hstep, hrun, htr1]
        have e2 : it + 1 + m = it + (m + 1) := by omega
        rw [e1, e2]
        congr 3
        cases sample with
        | none => simp [updateCalls]
        | some sm =>
          simp only [updateCalls, List.append_assoc, List.append_cancel_left_eq,
            List.append_replicate_replicate]
          congr 1
          by_cases h5 : it < 5
          · simp only [h5, if_true]; omega
          · simp only [h5, if_false]; omega
      · rw [← e1]; exact hle
      · rw [← e1]
        rcases hpos with h0 | hp
        · subst h0
          simp only [Nat.cast_zero, zero_mul, sub_zero]
          exact sub_pos.mpr hgt
        · exact hp
    · refine ⟨0, Nat.zero_le _, ?_, ?_, Or.inl rfl⟩
      · simp only [simLoop, hgt, if_false]
        cases sample <;> simp [updateCalls]
      · simpa using not_lt.mp hgt

/-- C3: for every accumulator value and every frame time `dt`, over any
ordered field, the fixed-step update of one frame terminates (20 units of fuel
or more always suffice); it runs some number `n` of loop steps, calls the
pipeline's update `k = min n 5 <= 5` times, each time with the step 1/20
(never without a pipeline); it leaves the accumulator at the clamped value
minus `n` whole steps, so steps beyond the fifth are subtracted without an
update call; and the accumulator it leaves lies in [-1, 1/20]. Nothing else
in the session changes. -/
theorem C3_fixed_step_update {α : Type} [LinearOrderedField α] (s : Session α) (dt : α)
    (extra : Nat) :
    ∃ n k : Nat,
      updateSimulation (20 + extra) dt s =
        some { s with
          timeAcc := rcClamp (s.timeAcc + dt) (-1) 1 - (n : α) * (1 / 20)
          trace := s.trace ++ updateCalls s.sample k } ∧
      k = min n 5 ∧ k ≤ 5 ∧
      rcClamp (s.timeAcc + dt) (-1) 1 ≤ 1 ∧
      -1 ≤ rcClamp (s.timeAcc + dt) (-1) 1 - (n : α) * (1 / 20) ∧
      rcClamp (s.timeAcc + dt) (-1) 1 - (n : α) * (1 / 20) ≤ 1 / 20 := by
  have hc1 : rcClamp (s.timeAcc + dt) (-1) 1 ≤ 1 := by
    unfold rcClamp; split_ifs <;> linarith
  have hc2 : -1 ≤ rcClamp (s.timeAcc + dt) (-1) 1 := by
    unfold rcClamp; split_ifs <;> linarith
  obtain ⟨m, _, hrun, hle, hpos⟩ := simLoop_spec s.sample 19 (20 + extra)
    (rcClamp (s.timeAcc + dt) (-1) 1) 0 s.trace (by omega)
    (by simp only [DELTA_TIME]; norm_num; exact hc1)
  simp only [DELTA_TIME] at hrun hle hpos
  refine ⟨m, min m 5, ?_, rfl, min_le_right _ _, hc1, ?_, hle⟩
  · simp only [updateSimulation, hrun]
    simp
  · rcases hpos with h0 | hp
    · subst h0; simpa using hc2
    · linarith

/-! ### Hit test -/

/-- C4: for every requested pick with geometry and pipeline both present, with
ray (rayStart, rayEnd) and raycast result (hit, t): on hit under the control
modifier the marker becomes set at rayStart + (rayEnd - rayStart)*t and no
call is made; on hit without it the click handler is called exactly once with
origin rayStart, point rayStart + (rayEnd - rayStart)*t and the shift flag of
the request, and the marker is unchanged; on miss under the control modifier
the marker becomes unset and no call is made; on miss without it the session
is unchanged. -/
theorem C4_pick_dispatch {α : Type} [LinearOrderedField α] (s : Session α)
    (g : InputGeom α) (sm : Sample) (raycastMesh : Vec3 α → Vec3 α → Bool × α)
    (hit : Bool) (t : α)
    (hreq : s.processHitTest = true) (hg : s.geom = some g) (hs : s.sample = some sm)
    (hray : raycastMesh s.rayStart s.rayEnd = (hit, t)) :
    (hit = true →
      (hitTest raycastMesh true s).markerPositionSet = true ∧
      (hitTest raycastMesh true s).markerPosition.x
        = s.rayStart.x + (s.rayEnd.x - s.rayStart.x) * t ∧
      (hitTest raycastMesh true s).markerPosition.y
        = s.rayStart.y + (s.rayEnd.y - s.rayStart.y) * t ∧
      (hitTest raycastMesh true s).markerPosition.z
        = s.rayStart.z + (s.rayEnd.z - s.rayStart.z) * t ∧
      (hitTest raycastMesh true s).trace = s.trace) ∧
    (hit = true →
      (hitTest raycastMesh false s).trace =
        s.trace ++ [Call.handleClick sm.addr s.rayStart
          ⟨s.rayStart.x + (s.rayEnd.x - s.rayStart.x) * t,
           s.rayStart.y + (s.rayEnd.y - s.rayStart.y) * t,
           s.rayStart.z + (s.rayEnd.z - s.rayStart.z) * t⟩ s.processHitTestShift] ∧
      (hitTest raycastMesh false s).markerPositionSet = s.markerPositionSet ∧
      (hitTest raycastMesh false s).markerPosition = s.markerPosition) ∧
    (hit = false →
      (hitTest raycastMesh true s).markerPositionSet = false ∧
      (hitTest raycastMesh true s).trace = s.trace) ∧
    (hit = false → hitTest raycastMesh false s = s) := by
  refine ⟨?_, ?_, ?_, ?_⟩ <;> intro hh <;> subst hh <;>
    simp [hitTest, hreq, hg, hs, hray, hitPoint, Session.call]

/-- C4 at a concrete pick: the loaded session after a left-button release, a
ray cast that hits at t = 1/2, control held: the marker becomes set. -/
theorem C4_pick_dispatch_witness :
    sessionPick.processHitTest = true ∧
    (hitTest raycastHalf true sessionPick).markerPositionSet = true ∧
    (hitTest raycastHalf true sessionPick).trace = sessionPick.trace :=
  ⟨rfl,
   ((C4_pick_dispatch sessionPick ⟨1, ⟨0, 0, 0⟩, ⟨10, 0, 10⟩⟩
      { addr := 0, kind := 1, m_geom := some 1, m_model_name := "arena",
        hasContext := true, has_tf2 := true }
      raycastHalf true (1 / 2) rfl rfl rfl rfl).1 rfl).1,
   ((C4_pick_dispatch sessionPick ⟨1, ⟨0, 0, 0⟩, ⟨10, 0, 10⟩⟩
      { addr := 0, kind := 1, m_geom := some 1, m_model_name := "arena",
        hasContext := true, has_tf2 := true }
      raycastHalf true (1 / 2) rfl rfl rfl rfl).1 rfl).2.2.2.2⟩

/-! ### Build button -/

/-- C5: with the menu shown and geometry and pipeline both present, a click on
Build performs, after the settings call of the panel and in this order: reset
of the log, exactly one call of the pipeline's build, the dump "Build log
<mesh name>:" whether the build succeeded or failed, and the discarding of the
test case, which is absent afterwards; the log view is forced open with scroll
0 when the build failed and left as it was when it succeeded. With geometry or
pipeline absent the block changes nothing: no build call, no log dump. -/
theorem C5_build_button {α : Type} [LinearOrderedField α] (s : Session α)
    (click buildOk : Bool) :
    (∀ (g : InputGeom α) (sm : Sample),
      s.showMenu = true → s.geom = some g → s.sample = some sm →
      (buildSection true buildOk s).trace =
        s.trace ++ [Call.handleSettings sm.addr, Call.resetLog, Call.handleBuild sm.addr,
          Call.dumpLog ("Build log " ++ s.meshName ++ ":")] ++
          (if s.test.isSome then [Call.deleteTest] else []) ∧
      (buildSection true buildOk s).test = none ∧
      (buildOk = false →
        (buildSection true buildOk s).showLog = true ∧
        (buildSection true buildOk s).logScroll = 0) ∧
      (buildOk = true →
        (buildSection true buildOk s).showLog = s.showLog ∧
        (buildSection true buildOk s).logScroll = s.logScroll)) ∧
    (s.geom = none ∨ s.sample = none → buildSection click buildOk s = s) := by
  constructor
  · intro g sm hm hg hs
    cases buildOk <;> cases ht : s.test <;>
      simp [buildSection, hm, hg, hs, ht, Session.call, Session.destroyTest]
  · rintro (hg | hs)
    · simp [buildSection, hg]
    · cases hg : s.geom <;> simp [buildSection, hg, hs]

/-- C5 at concrete sessions: a failing build of the loaded session forces the
log open and leaves no test case; a click in the session without geometry
changes nothing. -/
theorem C5_build_button_witness :
    ((buildSection true false sessionTested).showLog = true ∧
     (buildSection true false sessionTested).logScroll = 0) ∧
    (buildSection true false sessionTested).test = none ∧
    buildSection true false session0 = session0 :=
  ⟨(((C5_build_button sessionTested true false).1 ⟨1, ⟨0, 0, 0⟩, ⟨10, 0, 10⟩⟩
      { addr := 0, kind := 1, m_geom := some 1, m_model_name := "arena",
        hasContext := true, has_tf2 := true } rfl rfl rfl).2.2.1 rfl),
   ((C5_build_button sessionTested true false).1 ⟨1, ⟨0, 0, 0⟩, ⟨10, 0, 10⟩⟩
      { addr := 0, kind := 1, m_geom := some 1, m_model_name := "arena",
        hasContext := true, has_tf2 := true } rfl rfl rfl).2.1,
   (C5_build_button session0 true false).2 (Or.inl rfl)⟩

/-! ### Geometry load -/

/-- C6: for every interactive geometry load (non-empty geom_path) whose loader
reports failure, afterwards the geometry is absent; the pipeline is absent if
it was present with an attached geometry and is otherwise left as it was; the
log view is forced open with scroll 0; and the diagnostic "Geom load log
<mesh name>:" is emitted. The startup auto-load on failure sets the geometry
absent and emits the same diagnostic, but leaves the pipeline (and the log
view) as it was. -/
theorem C6_load_failure {α : Type} [LinearOrderedField α] (sqrtf : α → α)
    (loader : String → Option (Vec3 α × Vec3 α)) (s : Session α) (path : String) :
    (s.geom_path ≠ "" → loader s.geom_path = none →
      (loadGeometry sqrtf loader s).geom = none ∧
      (loadGeometry sqrtf loader s).sample =
        (match s.sample with
          | some sm => if sm.m_geom.isSome then none else some sm
          | none => none) ∧
      (loadGeometry sqrtf loader s).showLog = true ∧
      (loadGeometry sqrtf loader s).logScroll = 0 ∧
      Call.dumpLog ("Geom load log " ++ s.meshName ++ ":")
        ∈ (loadGeometry sqrtf loader s).trace) ∧
    (loader path = none →
      (do_auto_load loader path s).geom = none ∧
      (do_auto_load loader path s).sample = s.sample ∧
      (do_auto_load loader path s).showLog = s.showLog ∧
      (do_auto_load loader path s).logScroll = s.logScroll ∧
      (do_auto_load loader path s).trace =
        s.trace ++ [Call.geomLoad s.heap path, Call.deleteGeom s.heap,
          Call.dumpLog ("Geom load log " ++ afterLastBackslash path ++ ":")]) := by
  constructor
  · intro hp hl
    cases hs : s.sample with
    | none =>
      simp [loadGeometry, hp, hl, hs, Session.call, Session.attachLoaded, Session.reframe]
    | some sm =>
      cases hm : sm.m_geom <;>
        simp [loadGeometry, hp, hl, hs, hm, Session.call, Session.attachLoaded,
          Session.reframe, Session.destroySample]
  · intro hl
    cases hs : s.sample <;>
      simp [do_auto_load, hl, hs, Session.call, Session.attachLoaded]

/-- C6 at concrete sessions: the failed dialog load of "missing.obj" in the
loaded session removes geometry and pipeline and opens the log; the failed
auto-load of "missing.obj" in the same session keeps the pipeline. -/
theorem C6_load_failure_witness :
    sessionDialog.geom_path ≠ "" ∧
    (loadGeometry sqrtQ loaderNone sessionDialog).geom = none ∧
    (loadGeometry sqrtQ loaderNone sessionDialog).showLog = true ∧
    (do_auto_load loaderNone "missing.obj" sessionLoaded).sample = sessionLoaded.sample :=
  ⟨by decide,
   ((C6_load_failure sqrtQ loaderNone sessionDialog "missing.obj").1 (by decide) rfl).1,
   ((C6_load_failure sqrtQ loaderNone sessionDialog "missing.obj").1 (by decide) rfl).2.2.1,
   ((C6_load_failure sqrtQ loaderNone sessionLoaded "missing.obj").2 rfl).2.1⟩

/-! ### Sample selection -/

theorem createSelected_kind {α : Type} (kind : Fin 3) (s : Session α) :
    sampleIndices.foldl (createSelected (fun i => decide (i = kind))) (none, s) =
      (some (newSampleAt s.heap kind),
        { s with heap := s.heap + 1, sampleName := g_samples kind }) := by
  fin_cases kind <;> simp [sampleIndices, createSelected]

theorem createSelected_frame {α : Type} (selected : Fin 3 → Bool) (s : Session α) :
    ∃ (h : Nat) (n : String),
      (sampleIndices.foldl (createSelected selected) (none, s)).2 =
        { s with heap := h, sampleName := n } := by
  simp only [sampleIndices, List.foldl, createSelected]
  cases selected 0 <;> cases selected 1 <;> cases selected 2 <;>
    exact ⟨_, _, rfl⟩

theorem selection_result {α : Type} [LinearOrderedField α] (sqrtf : α → α) (inside : Bool)
    (kind : Fin 3) (s : Session α) (hshow : s.showSample = true) :
    (sampleSelection sqrtf inside (fun i => decide (i = kind)) s).sample =
        some { newSampleAt s.heap kind with
          hasContext := true, m_geom := s.geom.map (fun g => g.addr) } ∧
    (sampleSelection sqrtf inside (fun i => decide (i = kind)) s).geom = s.geom ∧
    (sampleSelection sqrtf inside (fun i => decide (i = kind)) s).test = s.test ∧
    (sampleSelection sqrtf inside (fun i => decide (i = kind)) s).heap = s.heap + 1 ∧
    (sampleSelection sqrtf inside (fun i => decide (i = kind)) s).showMenu = s.showMenu ∧
    (sampleSelection sqrtf inside (fun i => decide (i = kind)) s).showLevels
      = s.showLevels ∧
    (sampleSelection sqrtf inside (fun i => decide (i = kind)) s).sampleName
      = g_samples kind ∧
    (sampleSelection sqrtf inside (fun i => decide (i = kind)) s).trace =
      s.trace ++
        (match s.sample with
          | some old => [Call.deleteSample old.addr]
          | none => []) ++
        [Call.setContext s.heap] ++
        (match s.geom with
          | some g => [Call.handleMeshChanged s.heap g.addr]
          | none => []) := by
  cases hg : s.geom <;> cases hs : s.sample <;> cases inside <;>
    simp [sampleSelection, hshow, createSelected_kind, Session.scrollArea,
      Session.destroySample, Session.setContext, Session.meshChanged, Session.reframe,
      Session.call, hg, hs, newSampleAt]

theorem load_success {α : Type} [LinearOrderedField α] (sqrtf : α → α)
    (loader : String → Option (Vec3 α × Vec3 α)) (s : Session α) (sm : Sample)
    (b : Vec3 α × Vec3 α)
    (hs : s.sample = some sm) (hp : s.geom_path ≠ "") (hl : loader s.geom_path = some b) :
    (loadGeometry sqrtf loader s).geom = some ⟨s.heap, b.1, b.2⟩ ∧
    (loadGeometry sqrtf loader s).sample =
      some { sm with m_geom := some s.heap, m_model_name := dropExtension s.meshName } ∧
    (loadGeometry sqrtf loader s).cam = update_camera sqrtf (some b.1) (some b.2) s.cam ∧
    (loadGeometry sqrtf loader s).trace =
      s.trace ++ [Call.geomLoad s.heap s.geom_path, Call.handleMeshChanged sm.addr s.heap] := by
  simp [loadGeometry, hs, hp, hl, Session.call, Session.attachLoaded, Session.meshChanged,
    Session.reframe]

theorem meshes_path_ne (file : String) : meshesFolder ++ "/" ++ file ≠ "" := by
  intro h
  have := congrArg String.length h
  simp only [meshesFolder, String.length_append] at this
  have h7 : ("Meshes" : String).length = 6 := by decide
  have h1 : ("/" : String).length = 1 := by decide
  have h0 : ("" : String).length = 0 := by decide
  omega

/-- C7: for every sample kind and every geometry file whose load succeeds,
selecting the sample (dialog open) and then loading the geometry, through the
"Load mesh..." dialog or through the level list, leaves a pipeline of that
kind whose attached geometry is exactly the newly loaded asset (the
mesh-changed notification for the new asset is in the trace), and the camera
is re-framed from the bounds of the new asset. -/
theorem C7_select_then_load {α : Type} [LinearOrderedField α] (sqrtf : α → α)
    (loader : String → Option (Vec3 α × Vec3 α)) (inside inside2 : Bool) (kind : Fin 3)
    (s : Session α) (file : String) (b : Vec3 α × Vec3 α) (hshow : s.showSample = true) :
    (s.showMenu = true → file ≠ "" → loader file = some b →
      ∃ sm g,
        (selectThenDialogLoad sqrtf loader inside kind file s).sample = some sm ∧
        (selectThenDialogLoad sqrtf loader inside kind file s).geom = some g ∧
        sm.kind = kind ∧ sm.addr = s.heap ∧ sm.m_geom = some g.addr ∧
        g.addr = s.heap + 1 ∧ g.bmin = b.1 ∧ g.bmax = b.2 ∧
        (selectThenDialogLoad sqrtf loader inside kind file s).cam =
          update_camera sqrtf (some b.1) (some b.2)
            (sampleSelection sqrtf inside (fun i => decide (i = kind)) s).cam ∧
        Call.handleMeshChanged sm.addr g.addr ∈
          (selectThenDialogLoad sqrtf loader inside kind file s).trace) ∧
    (s.showLevels = true → loader (meshesFolder ++ "/" ++ file) = some b →
      ∃ sm g,
        (selectThenLevelLoad sqrtf loader inside inside2 kind file s).sample = some sm ∧
        (selectThenLevelLoad sqrtf loader inside inside2 kind file s).geom = some g ∧
        sm.kind = kind ∧ sm.addr = s.heap ∧ sm.m_geom = some g.addr ∧
        g.addr = s.heap + 1 ∧ g.bmin = b.1 ∧ g.bmax = b.2 ∧
        (selectThenLevelLoad sqrtf loader inside inside2 kind file s).cam =
          update_camera sqrtf (some b.1) (some b.2)
            (sampleSelection sqrtf inside (fun i => decide (i = kind)) s).cam ∧
        Call.handleMeshChanged sm.addr g.addr ∈
          (selectThenLevelLoad sqrtf loader inside inside2 kind file s).trace) := by
  obtain ⟨h1, _, _, h4, h5, h6, _, _⟩ := selection_result sqrtf inside kind s hshow
  simp only [selectThenDialogLoad, selectThenLevelLoad]
  generalize sampleSelection sqrtf inside (fun i => decide (i = kind)) s = s1 at *
  constructor
  · intro hm hf hl
    have e : loadMeshButton (some file) (declareGeomPath s1) =
        { s1 with geom_path := file, meshName := afterLastBackslash file } := by
      simp [loadMeshButton, declareGeomPath, h5, hm]
    obtain ⟨k1, k2, k3, k4⟩ := load_success sqrtf loader _ _ b
      (show (loadMeshButton (some file) (declareGeomPath s1)).sample = _ by rw [e]; exact h1)
      (by rw [e]; exact hf) (by rw [e]; exact hl)
    refine ⟨_, _, k2, k1, rfl, rfl, ?_, ?_, rfl, rfl, ?_, ?_⟩
    · rw [e]
    · rw [e]; exact h4
    · rw [k3, e]
    · rw [k4, e]; simp [newSampleAt]
  · intro hv hl
    have e : ∃ t : Session α, levelSelection inside2 (some file) (declareGeomPath s1) = t ∧
        t.sample = s1.sample ∧ t.heap = s1.heap ∧ t.cam = s1.cam ∧
        t.geom_path = meshesFolder ++ "/" ++ file := by
      refine ⟨_, rfl, ?_⟩
      cases inside2 <;> cases hg : s1.geom <;>
        simp [levelSelection, declareGeomPath, h6, hv, Session.scrollArea,
          Session.destroyGeom, Session.call, hg]
    obtain ⟨t, et, t1, t2, t3, t4⟩ := e
    rw [et]
    obtain ⟨k1, k2, k3, k4⟩ := load_success sqrtf loader t _ b (t1.trans h1)
      (by rw [t4]; exact meshes_path_ne file) (by rw [t4]; exact hl)
    refine ⟨_, _, k2, k1, rfl, rfl, ?_, ?_, rfl, rfl, ?_, ?_⟩
    · simp
    · simp [t2, h4]
    · rw [k3, t3]
    · rw [k4]; simp [newSampleAt]

/-- C7 at a concrete session: in the loaded session with the sample dialog
open, "Temp Obstacles" is selected and "dungeon.obj" is loaded through the
"Load mesh..." dialog. -/
theorem C7_select_then_load_witness :
    sessionTested.showSample = true ∧
    ∃ sm g,
      (selectThenDialogLoad sqrtQ loaderBox false 2 "dungeon.obj" sessionTested).sample
        = some sm ∧
      (selectThenDialogLoad sqrtQ loaderBox false 2 "dungeon.obj" sessionTested).geom
        = some g ∧
      sm.kind = 2 ∧ sm.addr = sessionTested.heap ∧ sm.m_geom = some g.addr ∧
      g.addr = sessionTested.heap + 1 ∧
      g.bmin = (⟨0, 0, 0⟩, (⟨10, 0, 10⟩ : Vec3 ℚ)).1 ∧
      g.bmax = ((⟨0, 0, 0⟩ : Vec3 ℚ), ⟨10, 0, 10⟩).2 ∧
      (selectThenDialogLoad sqrtQ loaderBox false 2 "dungeon.obj" sessionTested).cam =
        update_camera sqrtQ (some (⟨0, 0, 0⟩, (⟨10, 0, 10⟩ : Vec3 ℚ)).1)
          (some ((⟨0, 0, 0⟩ : Vec3 ℚ), ⟨10, 0, 10⟩).2)
          (sampleSelection sqrtQ false (fun i => decide (i = 2)) sessionTested).cam ∧
      Call.handleMeshChanged sm.addr g.addr ∈
        (selectThenDialogLoad sqrtQ loaderBox false 2 "dungeon.obj" sessionTested).trace :=
  ⟨rfl,
   (C7_select_then_load sqrtQ loaderBox false false 2 sessionTested "dungeon.obj"
      (⟨0, 0, 0⟩, ⟨10, 0, 10⟩) rfl).1 rfl (by decide) rfl⟩

/-- C8, as stated, fails: selecting "Solo Mesh" in a session that holds a test
case leaves that test case in place. -/
theorem C8_selection_keeps_test_case :
    sessionTested.showSample = true ∧
    (sampleSelection sqrtQ false (fun i => decide (i = 0)) sessionTested).test
      = some arenaTest ∧
    (sampleSelection sqrtQ false (fun i => decide (i = 0)) sessionTested).test ≠ none := by
  have h : (sampleSelection sqrtQ false (fun i => decide (i = 0)) sessionTested).test
      = some arenaTest := rfl
  exact ⟨rfl, h, by rw [h]; exact Option.some_ne_none _⟩

/-- C8, amended: for every session with the sample dialog open and every
sample kind, the selection destroys the previous pipeline, installs a newly
constructed one of that kind (fresh address, context set), attaches the
current geometry to it when one is present, records the name of the kind as
sample name, and leaves the test case as it was. -/
theorem C8_select_sample {α : Type} [LinearOrderedField α] (sqrtf : α → α) (inside : Bool)
    (kind : Fin 3) (s : Session α) (hshow : s.showSample = true) :
    (sampleSelection sqrtf inside (fun i => decide (i = kind)) s).sample =
      some { addr := s.heap, kind := kind, m_geom := s.geom.map (fun g => g.addr),
             m_model_name := "", hasContext := true, has_tf2 := true } ∧
    (sampleSelection sqrtf inside (fun i => decide (i = kind)) s).sampleName
      = g_samples kind ∧
    (sampleSelection sqrtf inside (fun i => decide (i = kind)) s).geom = s.geom ∧
    (sampleSelection sqrtf inside (fun i => decide (i = kind)) s).trace =
      s.trace ++
        (match s.sample with
          | some old => [Call.deleteSample old.addr]
          | none => []) ++
        [Call.setContext s.heap] ++
        (match s.geom with
          | some g => [Call.handleMeshChanged s.heap g.addr]
          | none => []) ∧
    (sampleSelection sqrtf inside (fun i => decide (i = kind)) s).test = s.test := by
  obtain ⟨h1, h2, h3, _, _, _, h7, h8⟩ := selection_result sqrtf inside kind s hshow
  exact ⟨h1, h7, h2, h8, h3⟩

/-- C8, amended, at a concrete session: "Solo Mesh" is selected in the loaded
session that holds a test case. -/
theorem C8_select_sample_witness :
    sessionTested.showSample = true ∧
    (sampleSelection sqrtQ false (fun i => decide (i = 0)) sessionTested).sample =
      some { addr := sessionTested.heap, kind := 0,
             m_geom := sessionTested.geom.map (fun g => g.addr),
             m_model_name := "", hasContext := true, has_tf2 := true } ∧
    (sampleSelection sqrtQ false (fun i => decide (i = 0)) sessionTested).test
      = sessionTested.test :=
  ⟨rfl, (C8_select_sample sqrtQ false 0 sessionTested rfl).1,
   (C8_select_sample sqrtQ false 0 sessionTested rfl).2.2.2.2⟩

/-! ### Failure paths and the log view -/

/-- C9 fails on the code in two of its five paths. A build failure during
test-case replay (script and geometry load, the build reports failure) dumps
"Build log arena.obj:" and goes on to run the tests, but leaves the log view
closed; a startup auto-load of a file that fails to load dumps "Geom load log
missing.obj:" and leaves the log view closed as well. -/
theorem C9_log_view_stays_closed :
    (sessionReplay.showLog = false ∧
      ∃ s', testCases sqrtQ false (some "arena.txt") (fun _ => some arenaTest) loaderBox
            false sessionReplay = .ok s' ∧
        s'.trace = sessionReplay.trace ++
          [Call.testLoad "TestCases/arena.txt", Call.deleteSample 0, Call.setContext 2,
           Call.deleteGeom 1, Call.geomLoad 3 "Meshes/arena.obj",
           Call.handleMeshChanged 2 3, Call.handleSettings 2, Call.resetLog,
           Call.handleBuild 2, Call.dumpLog "Build log arena.obj:", Call.doTests 2] ∧
        s'.showLog = false) ∧
    ((startup sqrtQ loaderNone (some "missing.obj") ⟨0, 0, 0⟩ ⟨0, 0, 1⟩).geom.isNone = true ∧
      (startup sqrtQ loaderNone (some "missing.obj") ⟨0, 0, 0⟩ ⟨0, 0, 1⟩).trace =
        [Call.setContext 0, Call.geomLoad 1 "missing.obj", Call.deleteGeom 1,
         Call.dumpLog "Geom load log missing.obj:"] ∧
      (startup sqrtQ loaderNone (some "missing.obj") ⟨0, 0, 0⟩ ⟨0, 0, 1⟩).showLog = false) :=
  ⟨⟨rfl, _, rfl, rfl, rfl⟩, rfl, rfl, rfl⟩

/-! ### Test-case replay -/

theorem replaySelectSample_frame {α : Type} (tc : TestCase) (s : Session α) :
    (replaySelectSample tc s).geom = s.geom ∧
    (replaySelectSample tc s).test = s.test ∧
    (replaySelectSample tc s).showLog = s.showLog ∧
    (replaySelectSample tc s).logScroll = s.logScroll ∧
    ∃ tr, (replaySelectSample tc s).trace = s.trace ++ tr ∧
      (∀ a, Call.handleBuild a ∉ tr) ∧ (∀ a, Call.doTests a ∉ tr) := by
  obtain ⟨h, n, e⟩ := createSelected_frame
    (fun i => decide (g_samples i = tc.sampleName)) s
  unfold replaySelectSample
  generalize sampleIndices.foldl
    (createSelected (fun i => decide (g_samples i = tc.sampleName))) (none, s) = r at e
  obtain ⟨r1, r2⟩ := r
  simp only at e
  subst e
  cases r1 <;> cases hs : s.sample <;>
    simp [Session.destroySample, Session.setContext, Session.call, hs]

theorem replayLoadGeom_failure {α : Type} (loader : String → Option (Vec3 α × Vec3 α))
    (tc : TestCase) (s : Session α)
    (hgeom : loader (meshesFolder ++ "/" ++ tc.geomFileName) = none) :
    (replayLoadGeom loader tc s).geom = none ∧
    (replayLoadGeom loader tc s).sample = none ∧
    (replayLoadGeom loader tc s).showLog = true ∧
    (replayLoadGeom loader tc s).logScroll = 0 ∧
    (replayLoadGeom loader tc s).test = s.test ∧
    ∃ tr, (replayLoadGeom loader tc s).trace = s.trace ++ tr ∧
      (∀ a, Call.handleBuild a ∉ tr) ∧ (∀ a, Call.doTests a ∉ tr) ∧
      Call.dumpLog ("Geom load log " ++ tc.geomFileName ++ ":") ∈ tr := by
  cases hs : s.sample <;> cases hg : s.geom <;>
    simp [replayLoadGeom, hgeom, hs, hg, Session.destroyGeom, Session.destroySample,
      Session.call, Session.attachLoaded]

theorem replayBuildAndTest_absent {α : Type} [LinearOrderedField α] (sqrtf : α → α)
    (buildOk : Bool) (s : Session α) (hs : s.sample = none) (hg : s.geom = none) :
    replayBuildAndTest sqrtf buildOk s = s.call .resetLog := by
  simp [replayBuildAndTest, hs, hg, Session.call, Session.reframe]

/-- C10: for every test case whose script loads but whose named geometry fails
to load, the replay returns within the same frame, with geometry and pipeline
both absent, the test case kept, the log view forced open with scroll 0, the
diagnostic "Geom load log <geometry name>:" emitted, and neither a build call
nor a `doTests` call (zero assertions evaluated) among the calls it made. -/
theorem C10_replay_geometry_failure {α : Type} [LinearOrderedField α] (sqrtf : α → α)
    (inside : Bool) (file : String) (testLoader : String → Option TestCase)
    (loader : String → Option (Vec3 α × Vec3 α)) (buildOk : Bool) (s : Session α)
    (tc : TestCase)
    (hshow : s.showTestCases = true)
    (htest : testLoader (testCasesFolder ++ "/" ++ file) = some tc)
    (hgeom : loader (meshesFolder ++ "/" ++ tc.geomFileName) = none) :
    ∃ (s' : Session α) (tr : List (Call α)),
      testCases sqrtf inside (some file) testLoader loader buildOk s = .ok s' ∧
      s'.geom = none ∧ s'.sample = none ∧ s'.test = some tc ∧
      s'.showLog = true ∧ s'.logScroll = 0 ∧
      s'.trace = s.trace ++ tr ∧
      (∀ a, Call.handleBuild a ∉ tr) ∧ (∀ a, Call.doTests a ∉ tr) ∧
      Call.dumpLog ("Geom load log " ++ tc.geomFileName ++ ":") ∈ tr := by
  have hrun : testCases sqrtf inside (some file) testLoader loader buildOk s =
      .ok (replayBuildAndTest sqrtf buildOk (replayLoadGeom loader tc (replaySelectSample tc
        (({ s.scrollArea inside with test := some tc }).call
          (.testLoad (testCasesFolder ++ "/" ++ file)))))) := by
    simp [testCases, hshow, htest, Session.call]
  generalize hs2 : (({ s.scrollArea inside with test := some tc }).call
          (.testLoad (testCasesFolder ++ "/" ++ file))) = s2 at hrun
  have ht2 : s2.trace = s.trace ++ [Call.testLoad (testCasesFolder ++ "/" ++ file)] := by
    subst hs2; cases inside <;> simp [Session.call, Session.scrollArea]
  have hq2 : s2.test = some tc := by
    subst hs2; simp [Session.call]
  obtain ⟨_, q1, _, _, tr1, e1, b1, d1⟩ := replaySelectSample_frame tc s2
  obtain ⟨g3, m3, l3, c3, q3, tr2, e2, b2, d2, hd⟩ :=
    replayLoadGeom_failure loader tc (replaySelectSample tc s2) hgeom
  have h4 := replayBuildAndTest_absent sqrtf buildOk _ m3 g3
  refine ⟨_, [Call.testLoad (testCasesFolder ++ "/" ++ file)] ++ tr1 ++ tr2 ++ [Call.resetLog],
    hrun, ?_, ?_, ?_, ?_, ?_, ?_, ?_, ?_, ?_⟩
  · rw [h4]; exact g3
  · rw [h4]; exact m3
  · rw [h4]; exact (q3.trans q1).trans hq2
  · rw [h4]; exact l3
  · rw [h4]; exact c3
  · rw [h4]; simp [Session.call, e2, e1, ht2]
  · intro a; simp [b1 a, b2 a]
  · intro a; simp [d1 a, d2 a]
  · simp [hd]

/-- C10 at a concrete session: the replay of "arena.txt" in the loaded session
when the geometry "arena.obj" no longer loads. -/
theorem C10_replay_geometry_failure_witness :
    sessionReplay.showTestCases = true ∧
    ∃ (s' : Session ℚ) (tr : List (Call ℚ)),
      testCases sqrtQ false (some "arena.txt") (fun _ => some arenaTest) loaderNone true
        sessionReplay = .ok s' ∧
      s'.geom = none ∧ s'.sample = none ∧ s'.test = some arenaTest ∧
      s'.showLog = true ∧ s'.logScroll = 0 ∧
      s'.trace = sessionReplay.trace ++ tr ∧
      (∀ a, Call.handleBuild a ∉ tr) ∧ (∀ a, Call.doTests a ∉ tr) ∧
      Call.dumpLog ("Geom load log " ++ arenaTest.geomFileName ++ ":") ∈ tr :=
  ⟨rfl,
   C10_replay_geometry_failure sqrtQ false "arena.txt" (fun _ => some arenaTest) loaderNone
     true sessionReplay arenaTest rfl rfl rfl⟩

/-! ### Pick requests of the mouse buttons -/

/-- C11, as stated, fails: outside the overlay a frame whose only event is a
press of the left button requests no pick, and a frame whose only event is a
release of the left button requests one. -/
theorem C11_left_press_requests_no_pick :
    session0.mouseOverMenu = false ∧
    (pollEvents 600 session0 [.mouseButtonDown .left]).processHitTest = false ∧
    (pollEvents 600 session0 [.mouseButtonUp .left false]).processHitTest = true :=
  ⟨rfl, rfl, rfl⟩

/-- C11, amended: outside any overlay region a release of the primary (left)
mouse button requests a pick in the frame of the release, and a press of the
primary button changes nothing and requests none. -/
theorem C11_left_release_requests_pick {α : Type} [LinearOrderedField α] (height : Int)
    (s : Session α) (shift : Bool) (hover : s.mouseOverMenu = false) :
    (pollEvents height s [.mouseButtonUp .left shift]).processHitTest = true ∧
    handleEvent height s (.mouseButtonDown .left) = s ∧
    (pollEvents height s [.mouseButtonDown .left]).processHitTest = false := by
  simp [pollEvents, handleEvent, beginFrame, hover]

/-- C11, amended, at the first frame of a session started without a file. -/
theorem C11_left_release_requests_pick_witness :
    session0.mouseOverMenu = false ∧
    (pollEvents 600 session0 [.mouseButtonUp .left true]).processHitTest = true ∧
    handleEvent 600 session0 (.mouseButtonDown .left) = session0 ∧
    (pollEvents 600 session0 [.mouseButtonDown .left]).processHitTest = false :=
  ⟨rfl, C11_left_release_requests_pick 600 session0 true rfl⟩

/-- C12, as stated, fails: a pick requested by a right-button click with shift
not held (release event with shift = false), hitting geometry without the
control modifier, forwards `true` as third argument of the click handler. -/
theorem C12_right_pick_forwards_true :
    (handleEvent 600 sessionLoaded (.mouseButtonDown .right)).mouseOverMenu = false ∧
    (hitTest raycastHalf false
      (handleEvent 600 (handleEvent 600 sessionLoaded (.mouseButtonDown .right))
        (.mouseButtonUp .right false))).trace =
      sessionLoaded.trace ++
        [Call.handleClick 0 ⟨0, 0, 0⟩ ⟨0, 0, 1 / 2⟩ true] := by
  refine ⟨rfl, ?_⟩
  simp [hitTest, handleEvent, sessionLoaded, startup, Session.call, hitPoint, raycastHalf,
    initSession, Session.reframe, do_auto_load, Session.attachLoaded, Session.meshChanged,
    Session.setContext, loaderBox, newSampleAt]

/-- C12, amended: for every pick that hits geometry without the control
modifier, the third argument forwarded to the click handler equals the state
of the shift modifier at the release when the primary (left) button requested
the pick, and is `true`, whatever the shift state, when the secondary (right)
button requested it. -/
theorem C12_click_shift_flag {α : Type} [LinearOrderedField α] (height : Int)
    (s : Session α) (g : InputGeom α) (sm : Sample)
    (raycastMesh : Vec3 α → Vec3 α → Bool × α) (shift : Bool)
    (hover : s.mouseOverMenu = false) (hg : s.geom = some g) (hs : s.sample = some sm)
    (hhit : (raycastMesh s.rayStart s.rayEnd).1 = true) :
    (hitTest raycastMesh false (handleEvent height s (.mouseButtonUp .left shift))).trace =
      s.trace ++ [Call.handleClick sm.addr s.rayStart
        (hitPoint s.rayStart s.rayEnd (raycastMesh s.rayStart s.rayEnd).2) shift] ∧
    (s.movedDuringRotate = false →
      (hitTest raycastMesh false (handleEvent height s (.mouseButtonUp .right shift))).trace =
        s.trace ++ [Call.handleClick sm.addr s.rayStart
          (hitPoint s.rayStart s.rayEnd (raycastMesh s.rayStart s.rayEnd).2) true]) := by
  constructor
  · simp [hitTest, handleEvent, hover, hg, hs, hhit, Session.call]
  · intro hm
    simp [hitTest, handleEvent, hover, hg, hs, hhit, hm, Session.call]

/-- C12, amended, at the loaded session: a left release with shift held
forwards `true`, a right release without shift forwards `true` as well. -/
theorem C12_click_shift_flag_witness :
    sessionLoaded.mouseOverMenu = false ∧
    (hitTest raycastHalf false
        (handleEvent 600 sessionLoaded (.mouseButtonUp .left true))).trace =
      sessionLoaded.trace ++ [Call.handleClick 0 sessionLoaded.rayStart
        (hitPoint sessionLoaded.rayStart sessionLoaded.rayEnd
          (raycastHalf sessionLoaded.rayStart sessionLoaded.rayEnd).2) true] ∧
    (hitTest raycastHalf false
        (handleEvent 600 sessionLoaded (.mouseButtonUp .right false))).trace =
      sessionLoaded.trace ++ [Call.handleClick 0 sessionLoaded.rayStart
        (hitPoint sessionLoaded.rayStart sessionLoaded.rayEnd
          (raycastHalf sessionLoaded.rayStart sessionLoaded.rayEnd).2) true] :=
  ⟨rfl,
   (C12_click_shift_flag 600 sessionLoaded ⟨1, ⟨0, 0, 0⟩, ⟨10, 0, 10⟩⟩
      { addr := 0, kind := 1, m_geom := some 1, m_model_name := "arena",
        hasContext := true, has_tf2 := true }
      raycastHalf true rfl rfl rfl rfl).1,
   (C12_click_shift_flag 600 sessionLoaded ⟨1, ⟨0, 0, 0⟩, ⟨10, 0, 10⟩⟩
      { addr := 0, kind := 1, m_geom := some 1, m_model_name := "arena",
        hasContext := true, has_tf2 := true }
      raycastHalf false rfl rfl rfl rfl).2 rfl⟩

/-! ### Camera radius -/

/-- C13, as stated, fails: the radius starts positive, but auto-framing on the
degenerate box bmin = bmax = (0,0,0) leaves radius 0, and a session started
with a file whose mesh has that box reaches radius 0. -/
theorem C13_degenerate_box_radius_zero :
    (0 : ℝ) < (initCamera : Camera ℝ).camr ∧
    (update_camera Real.sqrt (some ⟨0, 0, 0⟩) (some ⟨0, 0, 0⟩) initCamera).camr = 0 ∧
    ¬ 0 < (update_camera Real.sqrt (some ⟨0, 0, 0⟩) (some ⟨0, 0, 0⟩) initCamera).camr ∧
    (startup Real.sqrt (fun _ => some (⟨0, 0, 0⟩, ⟨0, 0, 0⟩)) (some "point.obj")
      ⟨0, 0, 0⟩ ⟨0, 0, 1⟩).cam.camr = 0 := by
  have h : (update_camera Real.sqrt (some ⟨0, 0, 0⟩) (some ⟨0, 0, 0⟩) initCamera).camr
      = 0 := by
    simp [update_camera, rcSqr]
  refine ⟨by simp [initCamera], h, ?_, ?_⟩
  · rw [h]
    exact lt_irrefl 0
  · simp [startup, do_auto_load, Session.reframe, Session.attachLoaded, Session.meshChanged,
      Session.setContext, Session.call, initSession, update_camera, rcSqr, newSampleAt]

theorem extents_pos_iff (mn mx : Vec3 ℝ) :
    0 < rcSqr (mx.x - mn.x) + rcSqr (mx.y - mn.y) + rcSqr (mx.z - mn.z) ↔
      (mn.x ≠ mx.x ∨ mn.y ≠ mx.y ∨ mn.z ≠ mx.z) := by
  simp only [rcSqr]
  constructor
  · intro h
    by_contra hc
    push_neg at hc
    obtain ⟨h1, h2, h3⟩ := hc
    rw [h1, h2, h3] at h
    simp at h
  · intro hne
    rcases hne with h | h | h
    · have : 0 < (mx.x - mn.x) * (mx.x - mn.x) :=
        mul_self_pos.mpr (sub_ne_zero.mpr (Ne.symm h))
      nlinarith [mul_self_nonneg (mx.y - mn.y), mul_self_nonneg (mx.z - mn.z)]
    · have : 0 < (mx.y - mn.y) * (mx.y - mn.y) :=
        mul_self_pos.mpr (sub_ne_zero.mpr (Ne.symm h))
      nlinarith [mul_self_nonneg (mx.x - mn.x), mul_self_nonneg (mx.z - mn.z)]
    · have : 0 < (mx.z - mn.z) * (mx.z - mn.z) :=
        mul_self_pos.mpr (sub_ne_zero.mpr (Ne.symm h))
      nlinarith [mul_self_nonneg (mx.x - mn.x), mul_self_nonneg (mx.y - mn.y)]

/-- C13, amended, arithmetic read over the reals: the camera radius starts
positive (1000); for every camera, whatever its previous radius, auto-framing
on a box leaves the radius three times half the diagonal of the box, which is
> 0 if and only if bmin and bmax differ in some component, and is 0 for every
degenerate box with bmin = bmax; with either bound absent auto-framing leaves
the radius exactly as it was. -/
theorem C13_radius_positive (c : Camera ℝ) (mn mx : Vec3 ℝ) (b : Option (Vec3 ℝ)) :
    (0 : ℝ) < (initCamera : Camera ℝ).camr ∧
    (initCamera : Camera ℝ).camr = 1000 ∧
    (update_camera Real.sqrt (some mn) (some mx) c).camr =
      Real.sqrt (rcSqr (mx.x - mn.x) + rcSqr (mx.y - mn.y) + rcSqr (mx.z - mn.z)) / 2 * 3 ∧
    (0 < (update_camera Real.sqrt (some mn) (some mx) c).camr ↔
      (mn.x ≠ mx.x ∨ mn.y ≠ mx.y ∨ mn.z ≠ mx.z)) ∧
    (mn.x = mx.x ∧ mn.y = mx.y ∧ mn.z = mx.z →
      (update_camera Real.sqrt (some mn) (some mx) c).camr = 0) ∧
    (update_camera Real.sqrt none b c).camr = c.camr ∧
    (update_camera Real.sqrt b none c).camr = c.camr := by
  have hval : (update_camera Real.sqrt (some mn) (some mx) c).camr =
      Real.sqrt (rcSqr (mx.x - mn.x) + rcSqr (mx.y - mn.y) + rcSqr (mx.z - mn.z)) / 2 * 3 := by
    simp only [update_camera]
  refine ⟨by simp [initCamera], by simp [initCamera], hval, ?_, ?_, ?_, ?_⟩
  · rw [hval, ← extents_pos_iff mn mx]
    constructor
    · intro h
      apply Real.sqrt_pos.mp
      linarith
    · intro h
      have hs := Real.sqrt_pos.mpr h
      linarith
  · rintro ⟨h1, h2, h3⟩
    rw [hval, h1, h2, h3]
    simp [rcSqr]
  · simp [update_camera]
  · cases b <;> simp [update_camera]

/-- C13, amended, at the initial camera: the box (0,0,0)-(10,0,10) leaves a
positive radius, the degenerate box at (3,4,5) leaves radius 0. -/
theorem C13_radius_positive_witness :
    0 < (update_camera Real.sqrt (some ⟨0, 0, 0⟩) (some ⟨10, 0, 10⟩) initCamera).camr ∧
    (update_camera Real.sqrt (some ⟨3, 4, 5⟩) (some ⟨3, 4, 5⟩) initCamera).camr = 0 :=
  ⟨(C13_radius_positive initCamera ⟨0, 0, 0⟩ ⟨10, 0, 10⟩ none).2.2.2.1.mpr
      (Or.inl (by norm_num)),
   (C13_radius_positive initCamera ⟨3, 4, 5⟩ ⟨3, 4, 5⟩ none).2.2.2.2.1 ⟨rfl, rfl, rfl⟩⟩

/-! ### Attached geometry -/

theorem reframe_attachedOk {α : Type} [LinearOrderedField α] (sqrtf : α → α)
    (s : Session α) : (s.reframe sqrtf).attachedOk = s.attachedOk := by
  unfold Session.reframe
  split_ifs <;> rfl

theorem loadGeometry_attachedOk {α : Type} [LinearOrderedField α] (sqrtf : α → α)
    (loader : String → Option (Vec3 α × Vec3 α)) (s : Session α)
    (h : s.geom_path = "" → s.attachedOk = true) :
    (loadGeometry sqrtf loader s).attachedOk = true := by
  by_cases hp : s.geom_path = ""
  · simp [loadGeometry, hp, h hp]
  · unfold loadGeometry
    rw [if_neg hp]
    simp only [reframe_attachedOk]
    cases hl : loader s.geom_path <;> cases hs : s.sample with
    | none => simp [hl, hs, Session.call, Session.attachLoaded, Session.attachedOk]
    | some sm =>
      cases hm : sm.m_geom <;>
        simp [hl, hs, hm, Session.call, Session.attachLoaded, Session.attachedOk,
          Session.meshChanged, Session.destroySample]

theorem createSelected_cases {α : Type} (selected : Fin 3 → Bool) (s : Session α) :
    sampleIndices.foldl (createSelected selected) (none, s) = (none, s) ∨
    ∃ (a : Nat) (i : Fin 3) (h : Nat) (n : String),
      sampleIndices.foldl (createSelected selected) (none, s) =
        (some (newSampleAt a i), { s with heap := h, sampleName := n }) := by
  simp only [sampleIndices, List.foldl, createSelected]
  cases selected 0 <;> cases selected 1 <;> cases selected 2 <;>
    first
    | exact Or.inl rfl
    | exact Or.inr ⟨_, _, _, _, rfl⟩

theorem sampleSelection_attachedOk {α : Type} [LinearOrderedField α] (sqrtf : α → α)
    (inside : Bool) (selected : Fin 3 → Bool) (s : Session α)
    (h : s.attachedOk = true) :
    (sampleSelection sqrtf inside selected s).attachedOk = true := by
  unfold sampleSelection
  split_ifs with hshow
  · exact h
  · simp only [reframe_attachedOk]
    have hin : (s.scrollArea inside).attachedOk = true := by
      cases inside <;> simpa [Session.scrollArea, Session.attachedOk] using h
    rcases createSelected_cases selected (s.scrollArea inside) with e | ⟨a, i, k, n, e⟩
    · rw [e]; exact hin
    · rw [e]
      cases inside <;> cases hg : s.geom <;> cases hs : s.sample <;>
        simp [Session.scrollArea, Session.destroySample, Session.setContext,
          Session.meshChanged, Session.call, Session.attachedOk, newSampleAt, hg, hs]

theorem dialogLoad_attachedOk {α : Type} [LinearOrderedField α] (sqrtf : α → α)
    (loader : String → Option (Vec3 α × Vec3 α)) (picked : Option String) (s : Session α)
    (h : s.attachedOk = true) : (dialogLoad sqrtf loader picked s).attachedOk = true := by
  unfold dialogLoad
  apply loadGeometry_attachedOk
  intro _
  have e : (loadMeshButton picked (declareGeomPath s)).attachedOk = s.attachedOk := by
    cases picked <;> cases hm : s.showMenu <;>
      simp [loadMeshButton, declareGeomPath, hm, Session.attachedOk]
  rw [e]; exact h

theorem levelLoad_attachedOk {α : Type} [LinearOrderedField α] (sqrtf : α → α)
    (loader : String → Option (Vec3 α × Vec3 α)) (inside : Bool)
    (levelToLoad : Option String) (s : Session α) (h : s.attachedOk = true) :
    (levelLoad sqrtf loader inside levelToLoad s).attachedOk = true := by
  unfold levelLoad
  apply loadGeometry_attachedOk
  intro hp
  cases hv : s.showLevels with
  | false => simpa [levelSelection, declareGeomPath, hv, Session.attachedOk] using h
  | true =>
    cases levelToLoad with
    | none =>
      cases inside <;>
        simpa [levelSelection, declareGeomPath, hv, Session.attachedOk, Session.scrollArea]
          using h
    | some file =>
      exfalso
      have hq : (levelSelection inside (some file) (declareGeomPath s)).geom_path
          = meshesFolder ++ "/" ++ file := by
        cases inside <;> cases hg : s.geom <;>
          simp [levelSelection, declareGeomPath, hv, Session.scrollArea,
            Session.destroyGeom, Session.call, hg]
      rw [hq] at hp
      exact meshes_path_ne file hp

theorem replaySelectSample_detached {α : Type} (tc : TestCase) (s : Session α) :
    ∀ sm, (replaySelectSample tc s).sample = some sm → sm.m_geom = none := by
  unfold replaySelectSample
  rcases createSelected_cases (fun i => decide (g_samples i = tc.sampleName)) s
    with e | ⟨a, i, k, n, e⟩
  · rw [e]
    cases hs : s.sample <;> simp [Session.destroySample, Session.call, hs]
  · rw [e]
    cases hs : s.sample <;>
      simp [Session.destroySample, Session.setContext, Session.call, hs, newSampleAt]

theorem replayLoadGeom_attachedOk {α : Type} (loader : String → Option (Vec3 α × Vec3 α))
    (tc : TestCase) (s : Session α) (h : ∀ sm, s.sample = some sm → sm.m_geom = none) :
    (replayLoadGeom loader tc s).attachedOk = true := by
  unfold replayLoadGeom
  cases hl : loader (meshesFolder ++ "/" ++ tc.geomFileName) <;> cases hs : s.sample with
  | none =>
    cases hg : s.geom <;>
      simp [hl, hs, hg, Session.call, Session.attachLoaded, Session.attachedOk,
        Session.destroyGeom, Session.destroySample]
  | some sm =>
    have hm := h sm hs
    cases hg : s.geom <;>
      simp [hl, hs, hg, hm, Session.call, Session.attachLoaded, Session.attachedOk,
        Session.destroyGeom, Session.destroySample, Session.meshChanged]

theorem replayBuildAndTest_attachedOk {α : Type} [LinearOrderedField α] (sqrtf : α → α)
    (buildOk : Bool) (s : Session α) :
    (replayBuildAndTest sqrtf buildOk s).attachedOk = s.attachedOk := by
  cases hs : s.sample <;> cases hg : s.geom <;> cases buildOk <;>
    simp [replayBuildAndTest, hs, hg, Session.call, Session.reframe, Session.attachedOk]

theorem startup_attachedOk {α : Type} [LinearOrderedField α] (sqrtf : α → α)
    (loader : String → Option (Vec3 α × Vec3 α)) (auto_load : Option String)
    (rayStart rayEnd : Vec3 α) :
    (startup sqrtf loader auto_load rayStart rayEnd).attachedOk = true := by
  cases auto_load with
  | none =>
    simp [startup, initSession, Session.setContext, Session.call, Session.attachedOk,
      newSampleAt]
  | some path =>
    cases hl : loader path <;>
      simp [startup, initSession, Session.setContext, Session.call, Session.attachedOk,
        newSampleAt, do_auto_load, hl, Session.attachLoaded, Session.meshChanged,
        Session.reframe]

theorem replay_runs {α : Type} [LinearOrderedField α] (sqrtf : α → α)
    (inside : Bool) (file : String) (testLoader : String → Option TestCase)
    (loader : String → Option (Vec3 α × Vec3 α)) (buildOk : Bool) (s : Session α)
    (tc : TestCase) (hshow : s.showTestCases = true)
    (htest : testLoader (testCasesFolder ++ "/" ++ file) = some tc) :
    testCases sqrtf inside (some file) testLoader loader buildOk s =
      .ok (replayBuildAndTest sqrtf buildOk (replayLoadGeom loader tc (replaySelectSample tc
        (({ s.scrollArea inside with test := some tc }).call
          (.testLoad (testCasesFolder ++ "/" ++ file)))))) := by
  simp [testCases, hshow, htest, Session.call]

/-- C14: after every completed orchestrator operation a pipeline that is
present refers to no geometry or to exactly the geometry the session holds.
This holds after session start with or without auto-load, whether the load
succeeds or fails; it is preserved by the sample selection dialog and by a
geometry load through the file dialog or the level list, whether the load
succeeds or fails; and it holds after every test-case replay whose script
loads, which does return a session. -/
theorem C14_attached_geometry {α : Type} [LinearOrderedField α] (sqrtf : α → α)
    (loader : String → Option (Vec3 α × Vec3 α)) (testLoader : String → Option TestCase)
    (auto_load picked levelToLoad : Option String) (rayStart rayEnd : Vec3 α)
    (inside buildOk : Bool) (selected : Fin 3 → Bool) (file : String) (s : Session α) :
    (startup sqrtf loader auto_load rayStart rayEnd).attachedOk = true ∧
    (s.attachedOk = true →
      (sampleSelection sqrtf inside selected s).attachedOk = true ∧
      (dialogLoad sqrtf loader picked s).attachedOk = true ∧
      (levelLoad sqrtf loader inside levelToLoad s).attachedOk = true) ∧
    (∀ tc, s.showTestCases = true →
      testLoader (testCasesFolder ++ "/" ++ file) = some tc →
      ∃ s', testCases sqrtf inside (some file) testLoader loader buildOk s = .ok s' ∧
        s'.attachedOk = true) := by
  refine ⟨startup_attachedOk sqrtf loader auto_load rayStart rayEnd, ?_, ?_⟩
  · intro h
    exact ⟨sampleSelection_attachedOk sqrtf inside selected s h,
      dialogLoad_attachedOk sqrtf loader picked s h,
      levelLoad_attachedOk sqrtf loader inside levelToLoad s h⟩
  · intro tc hshow htest
    refine ⟨_, replay_runs sqrtf inside file testLoader loader buildOk s tc hshow htest, ?_⟩
    rw [replayBuildAndTest_attachedOk]
    exact replayLoadGeom_attachedOk loader tc _ (replaySelectSample_detached tc _)

/-- C14 at concrete sessions: in the loaded session with the level list open,
the failed level-list load of "missing.obj" leaves no pipeline referring to
the destroyed geometry; the replay of "arena.txt" in the loaded session
returns a session that satisfies the condition. -/
theorem C14_attached_geometry_witness :
    sessionLevels.attachedOk = true ∧
    (levelLoad sqrtQ loaderNone false (some "missing.obj") sessionLevels).attachedOk = true ∧
    sessionReplay.showTestCases = true ∧
    ∃ s', testCases sqrtQ false (some "arena.txt") (fun _ => some arenaTest) loaderNone true
        sessionReplay = .ok s' ∧ s'.attachedOk = true :=
  ⟨rfl,
   ((C14_attached_geometry sqrtQ loaderNone (fun _ => some arenaTest) none none
      (some "missing.obj") ⟨0, 0, 0⟩ ⟨0, 0, 1⟩ false true (fun _ => false) "arena.txt"
      sessionLevels).2.1 rfl).2.2,
   rfl,
   (C14_attached_geometry sqrtQ loaderNone (fun _ => some arenaTest) none none
      (some "missing.obj") ⟨0, 0, 0⟩ ⟨0, 0, 1⟩ false true (fun _ => false) "arena.txt"
      sessionReplay).2.2 arenaTest rfl rfl⟩

/-! ### Orbit angles -/

theorem runMotions_spec {α : Type} [LinearOrderedField α] (height : Int)
    (motions : List (Int × Int)) :
    ∀ t : Session α, t.rotate = true →
      t.cam.cameraEulers =
        (t.origCameraEulers.1 - ((t.mousePos.2 - t.origMousePos.2 : Int) : α) * (1 / 4),
         t.origCameraEulers.2 + ((t.mousePos.1 - t.origMousePos.1 : Int) : α) * (1 / 4)) →
      (runMotions height t motions).rotate = true ∧
      (runMotions height t motions).origMousePos = t.origMousePos ∧
      (runMotions height t motions).origCameraEulers = t.origCameraEulers ∧
      (runMotions height t motions).mousePos = lastMousePos height t.mousePos motions ∧
      (runMotions height t motions).cam.cameraEulers =
        (t.origCameraEulers.1 -
            (((lastMousePos height t.mousePos motions).2 - t.origMousePos.2 : Int) : α)
              * (1 / 4),
         t.origCameraEulers.2 +
            (((lastMousePos height t.mousePos motions).1 - t.origMousePos.1 : Int) : α)
              * (1 / 4)) := by
  induction motions with
  | nil =>
    intro t hr hinv
    simp [runMotions, lastMousePos, hr, hinv]
  | cons m rest ih =>
    intro t hr hinv
    have hstep : runMotions height t (m :: rest)
        = runMotions height (handleEvent height t (.mouseMotion m.1 m.2)) rest := rfl
    have h1 : (handleEvent height t (.mouseMotion m.1 m.2)).rotate = true := by
      simp only [handleEvent, hr, if_true]; split_ifs <;> rfl
    have h2 : (handleEvent height t (.mouseMotion m.1 m.2)).origMousePos
        = t.origMousePos := by
      simp only [handleEvent, hr, if_true]; split_ifs <;> rfl
    have h3 : (handleEvent height t (.mouseMotion m.1 m.2)).origCameraEulers
        = t.origCameraEulers := by
      simp only [handleEvent, hr, if_true]; split_ifs <;> rfl
    have h4 : (handleEvent height t (.mouseMotion m.1 m.2)).mousePos
        = (m.1, height - 1 - m.2) := by
      simp only [handleEvent, hr, if_true]; split_ifs <;> rfl
    have h5 : (handleEvent height t (.mouseMotion m.1 m.2)).cam.cameraEulers =
        (t.origCameraEulers.1 - ((height - 1 - m.2 - t.origMousePos.2 : Int) : α) * (1 / 4),
         t.origCameraEulers.2 + ((m.1 - t.origMousePos.1 : Int) : α) * (1 / 4)) := by
      simp only [handleEvent, hr, if_true]; split_ifs <;> rfl
    obtain ⟨k1, k2, k3, k4, k5⟩ := ih (handleEvent height t (.mouseMotion m.1 m.2)) h1
      (by rw [h5, h3, h4, h2])
    have hl : lastMousePos height (m.1, height - 1 - m.2) rest
        = lastMousePos height t.mousePos (m :: rest) := by
      cases rest with
      | nil => simp [lastMousePos]
      | cons m2 rest2 =>
        have e : (m2 :: rest2).getLast?
            = some ((m2 :: rest2).getLast (List.cons_ne_nil _ _)) :=
          List.getLast?_eq_getLast _ _
        simp only [lastMousePos, List.getLast?_cons_cons, e]
    rw [hstep]
    rw [h4, hl] at k4
    rw [h4, hl, h3, h2] at k5
    exact ⟨k1, k2.trans h2, k3.trans h3, k4, k5⟩

/-- C15: while orbiting (after a right-button press outside the overlay), for
every sequence of mouse-motion events, the Euler angles after the last event
are (e0 - 0.25*dy, e1 + 0.25*dx), where (e0, e1) are the angles at orbit start
and (dx, dy) is the last mouse position minus the mouse position at orbit
start; the result depends on the last event only. A motion event while not
orbiting leaves the angles unchanged. -/
theorem C15_orbit_angles {α : Type} [LinearOrderedField α] (height : Int) (s : Session α)
    (motions : List (Int × Int)) (x y : Int) (hover : s.mouseOverMenu = false) :
    (runMotions height (handleEvent height s (.mouseButtonDown .right))
        motions).cam.cameraEulers
      = (s.cam.cameraEulers.1 -
            (((lastMousePos height s.mousePos motions).2 - s.mousePos.2 : Int) : α) * (1 / 4),
         s.cam.cameraEulers.2 +
            (((lastMousePos height s.mousePos motions).1 - s.mousePos.1 : Int) : α)
              * (1 / 4)) ∧
    (runMotions height (handleEvent height s (.mouseButtonDown .right)) motions).mousePos
      = lastMousePos height s.mousePos motions ∧
    (s.rotate = false →
      (handleEvent height s (.mouseMotion x y)).cam.cameraEulers = s.cam.cameraEulers) := by
  have hd : handleEvent height s (.mouseButtonDown .right) =
      { s with rotate := true, movedDuringRotate := false, origMousePos := s.mousePos,
               origCameraEulers := s.cam.cameraEulers } := by
    simp [handleEvent, hover]
  obtain ⟨_, _, _, k4, k5⟩ := runMotions_spec height motions
    (handleEvent height s (.mouseButtonDown .right)) (by rw [hd]) (by rw [hd]; simp)
  rw [hd] at k4 k5 ⊢
  refine ⟨k5, k4, ?_⟩
  intro hr
  simp [handleEvent, hr]

/-- C15 at a concrete orbit of the session started without a file: press at
(0,0), motions to (40,599), (7,580), (8,595): the angles are those of the last
position (8, 4), that is (45 - 1, 45 + 2). -/
theorem C15_orbit_angles_witness :
    session0.mouseOverMenu = false ∧
    lastMousePos 600 session0.mousePos [(40, 599), (7, 580), (8, 595)] = (8, 4) ∧
    (runMotions 600 (handleEvent 600 session0 (.mouseButtonDown .right))
        [(40, 599), (7, 580), (8, 595)]).cam.cameraEulers
      = (session0.cam.cameraEulers.1 -
            (((lastMousePos 600 session0.mousePos [(40, 599), (7, 580), (8, 595)]).2
                - session0.mousePos.2 : Int) : ℚ) * (1 / 4),
         session0.cam.cameraEulers.2 +
            (((lastMousePos 600 session0.mousePos [(40, 599), (7, 580), (8, 595)]).1
                - session0.mousePos.1 : Int) : ℚ) * (1 / 4)) :=
  ⟨rfl, by decide,
   (C15_orbit_angles 600 session0 [(40, 599), (7, 580), (8, 595)] 0 0 rfl).1⟩

/-! ### Replay of a script that fails to load -/

/-- C16: in test-case replay (dialog open, a script clicked), when the script
fails to load the test case is absent and the next step reads the sample name
through the null pointer: the replay returns the null-test-case error for
every script whose load fails, and returns a session, not an error, for every
script whose load succeeds. -/
theorem C16_replay_null_test {α : Type} [LinearOrderedField α] (sqrtf : α → α)
    (inside : Bool) (file : String) (testLoader : String → Option TestCase)
    (loader : String → Option (Vec3 α × Vec3 α)) (buildOk : Bool) (s : Session α)
    (hshow : s.showTestCases = true) :
    (testLoader (testCasesFolder ++ "/" ++ file) = none →
      testCases sqrtf inside (some file) testLoader loader buildOk s
        = .error Fault.nullTestCase) ∧
    (∀ tc, testLoader (testCasesFolder ++ "/" ++ file) = some tc →
      ∃ s', testCases sqrtf inside (some file) testLoader loader buildOk s = .ok s') := by
  constructor
  · intro h
    simp [testCases, hshow, h, Session.call]
  · intro tc h
    exact ⟨_, replay_runs sqrtf inside file testLoader loader buildOk s tc hshow h⟩

/-- C16 at the loaded session with the test dialog open: a script that fails
to load gives the error, the script of the arena scenario gives a session. -/
theorem C16_replay_null_test_witness :
    sessionReplay.showTestCases = true ∧
    testCases sqrtQ false (some "broken.txt") (fun _ => none) loaderBox true sessionReplay
      = .error Fault.nullTestCase ∧
    ∃ s', testCases sqrtQ false (some "arena.txt") (fun _ => some arenaTest) loaderBox true
      sessionReplay = .ok s' :=
  ⟨rfl,
   (C16_replay_null_test sqrtQ false "broken.txt" (fun _ => none) loaderBox true
      sessionReplay rfl).1 rfl,
   (C16_replay_null_test sqrtQ false "arena.txt" (fun _ => some arenaTest) loaderBox true
      sessionReplay rfl).2 arenaTest rfl⟩

end RecastDemo
